import Mathlib

set_option maxHeartbeats 1000000

/-!
Shallow embedding of the repository: the epoch loop and checkpoint handling of
`train.py`, and the SegRNN forecaster of `models/SegRNN.py`.  Tensor values are
rationals; library primitives whose numeric internals live outside the
repository (the GRU cell gate arithmetic, the realized dropout multipliers, the
per-epoch optimizer/scheduler/data effects) are parameters of the embedding,
while every shape computation, reshape, permute, broadcast and loop written in
the repository is translated operation by operation.
-/

/-- Per-epoch metric record built by `train` (train.py lines 125-128): the dict
literal with the four fixed metric keys, one ordered list of scalars per key. -/
structure Results where
  train_loss : List ℚ
  test_loss : List ℚ
  train_acc : List ℚ
  test_acc : List ℚ
  deriving DecidableEq

/-- The fresh record `train` starts from (train.py lines 125-128). -/
def Results.empty : Results := ⟨[], [], [], []⟩

/-- Abstract environment for one epoch of `train` (train.py lines 132-148).
`σ` is the mutable library state (model parameters, optimizer and scheduler
state, data order).  `trainStep` models `train_step` (updated state plus the
averaged train loss and accuracy), `testStep` models `test_step` (averaged test
loss and accuracy, state unchanged because it runs in inference mode), and
`schedulerStep` models `scheduler.step(test_loss)`.  The numeric work inside
these calls happens in the library, so they are parameters of the embedding. -/
structure Trainer (σ : Type) where
  trainStep : σ → σ × ℚ × ℚ
  testStep : σ → ℚ × ℚ
  schedulerStep : σ → ℚ → σ

/-- Observable outcome of a run of `train`: the returned results dict, the
epoch indices at which the line-155 status print fired, the final library
state, how many times the epoch body was entered, and whether the line-150
early-stopping `break` fired. -/
structure RunOutput (σ : Type) where
  results : Results
  printed : List Nat
  state : σ
  executed : Nat
  stoppedEarly : Bool

variable {σ : Type}

/-- Train loss reported by the epoch that starts from state `s` (train.py line 134). -/
def epochTrainLoss (T : Trainer σ) (s : σ) : ℚ := (T.trainStep s).2.1

/-- Train accuracy reported by the epoch that starts from state `s`. -/
def epochTrainAcc (T : Trainer σ) (s : σ) : ℚ := (T.trainStep s).2.2

/-- Test loss reported by the epoch that starts from state `s` (train.py line 142,
computed after the epoch's train step has updated the model). -/
def epochTestLoss (T : Trainer σ) (s : σ) : ℚ := (T.testStep (T.trainStep s).1).1

/-- Test accuracy reported by the epoch that starts from state `s`. -/
def epochTestAcc (T : Trainer σ) (s : σ) : ℚ := (T.testStep (T.trainStep s).1).2

/-- State after one full epoch body starting from `s` (train step, test step,
then `scheduler.step(test_loss)`, train.py lines 134-148). -/
def epochState (T : Trainer σ) (s : σ) : σ :=
  T.schedulerStep (T.trainStep s).1 (epochTestLoss T s)

/-- The epoch loop of `train` (train.py lines 130-163).  `fuel` is the number of
remaining `trange` iterations, `epoch` the current epoch index, `acc` the
results dict built so far, `log` the epoch indices printed so far, `cnt` the
number of epoch bodies entered so far.  The body runs the train step, the test
step and the scheduler step, breaks when the test loss is below the constant 7
(line 150), otherwise prints when `epoch % 10 == 0` (line 153) and only then
appends the four metrics (lines 158-161). -/
def trainLoop (T : Trainer σ) : Nat → Nat → σ → Results → List Nat → Nat → RunOutput σ
  | 0, _, s, acc, log, cnt => ⟨acc, log, s, cnt, false⟩
  | fuel+1, epoch, s, acc, log, cnt =>
    let s1 := (T.trainStep s).1
    let tel := (T.testStep s1).1
    let s2 := T.schedulerStep s1 tel
    if tel < 7 then ⟨acc, log, s2, cnt + 1, true⟩
    else
      trainLoop T fuel (epoch + 1) s2
        ⟨acc.train_loss ++ [(T.trainStep s).2.1], acc.test_loss ++ [tel],
         acc.train_acc ++ [(T.trainStep s).2.2], acc.test_acc ++ [(T.testStep s1).2]⟩
        (if epoch % 10 = 0 then log ++ [epoch] else log) (cnt + 1)

/-- `train` (train.py lines 100-163): runs the epoch loop from a fresh results
record, epoch index 0 and an empty print log. -/
def train (T : Trainer σ) (epochs : Nat) (s0 : σ) : RunOutput σ :=
  trainLoop T epochs 0 s0 Results.empty [] 0

/-- The per-epoch metric tuples `(train_loss, test_loss, train_acc, test_acc)` of
the epochs that complete without triggering the early stop, in execution order:
the reference sequence the results record is compared against. -/
def runMetrics (T : Trainer σ) : Nat → σ → List (ℚ × ℚ × ℚ × ℚ)
  | 0, _ => []
  | fuel+1, s =>
    if epochTestLoss T s < 7 then []
    else (epochTrainLoss T s, epochTestLoss T s, epochTrainAcc T s, epochTestAcc T s) ::
      runMetrics T fuel (epochState T s)

/-- The ascending list `[e, e+1, ..., e+n-1]` of epoch indices. -/
def epochsFrom (e : Nat) : Nat → List Nat
  | 0 => []
  | n+1 => e :: epochsFrom (e + 1) n

/-- Concrete trainer whose very first epoch reports test loss 5 < 7: the loop
body runs once (gradient step and evaluation included) and then breaks. -/
def stopTrainer : Trainer Nat :=
  ⟨fun s => (s + 1, 0, 0), fun _ => (5, 0), fun s _ => s⟩

/-- Concrete trainer whose epochs 0 and 1 report test loss 10 and whose epoch 2
reports test loss 5, triggering the early stop at the third epoch. -/
def mixTrainer : Trainer Nat :=
  ⟨fun s => (s + 1, 1, 2), fun s => (if s ≤ 2 then 10 else 5, 3), fun s _ => s⟩

/-- A parameter entry of a torch state dict: shape and flattened values.
Parameter names are abstract identifiers (Nat). -/
structure ParamT where
  shape : List Nat
  data : List ℚ
  deriving DecidableEq

/-- A state dict: ordered association list from parameter name to tensor. -/
abbrev StateDict := List (Nat × ParamT)

/-- Models `torch.nn.Module.load_state_dict` with `strict=True`, as called at
train.py line 192: every model parameter whose key occurs in the incoming dict
with an equal shape is overwritten in place with the saved tensor; an entry
whose shape differs is skipped (the model keeps its current tensor) and
recorded as an error, as are missing and unexpected keys; the Bool reports
whether a RuntimeError is raised after the copying pass. -/
def load_state_dict (model sd : StateDict) : StateDict × Bool :=
  (model.map fun kp =>
    match List.lookup kp.1 sd with
    | some q => if q.shape = kp.2.shape then (kp.1, q) else kp
    | none => kp,
   (model.any fun kp =>
     match List.lookup kp.1 sd with
     | some q => q.shape != kp.2.shape
     | none => true)
   || sd.any fun kp => (List.lookup kp.1 model).isNone)

/-- Exception classes as distinguished by the train.py line 190-195 guard:
`runtimeError` is the class named in the `except` clause, `otherError` stands
for every other exception class (unpickling errors, OS errors, ...). -/
inductive PyError
  | runtimeError
  | otherError
  deriving DecidableEq

/-- The checkpoint-restore block, train.py lines 188-195.  The combined outcome
of `os.path.exists` and `torch.load` is the `file` input: `none` means the file
does not exist, `some (.error e)` means `torch.load` raised an exception of
class `e`, `some (.ok sd)` means it deserialized the dict `sd`.  Only
RuntimeError is caught; a RuntimeError raised by `load_state_dict` after its
copying pass is caught as well, so the partially updated model is kept. -/
def checkpointLoad (model : StateDict) (file : Option (Except PyError StateDict)) :
    Except PyError StateDict :=
  match file with
  | none => .ok model
  | some (.error .runtimeError) => .ok model
  | some (.error e) => .error e
  | some (.ok sd) =>
    let r := load_state_dict model sd
    if r.2 then .ok r.1 else .ok r.1

/-- The `__main__` flow around the guard (train.py lines 165-212): `pre` models
everything before the `try` block (dataset, dataloader, model, optimizer and
scheduler construction), `post` everything after it (`train`, plotting,
saving); neither is inside any exception guard. -/
def mainFlow {α β : Type} (pre : Except PyError α) (model : StateDict)
    (file : Option (Except PyError StateDict)) (post : StateDict → Except PyError β) :
    Except PyError β := do
  let _ ← pre
  let m ← checkpointLoad model file
  post m

/-- Concrete randomly-initialized model parameters: two tensors, of shapes [2] and [3]. -/
def modelSD : StateDict := [(0, ⟨[2], [0, 0]⟩), (1, ⟨[3], [0, 0, 0]⟩)]

/-- Concrete saved checkpoint: key 0 matches the model's shape, key 1 does not. -/
def savedSD : StateDict := [(0, ⟨[2], [5, 6]⟩), (1, ⟨[4], [1, 1, 1, 1]⟩)]

/-- A torch tensor: a shape and a total row-major flattened value map.  Entries
at flat indices at or beyond the shape's product are irrelevant padding. -/
structure Tensor where
  shape : List Nat
  data : Nat → ℚ

/-- Size of dimension `i` (0 when the dimension is absent). -/
def Tensor.dim (t : Tensor) (i : Nat) : Nat := t.shape.getD i 0

/-- Number of entries. -/
def Tensor.numel (t : Tensor) : Nat := t.shape.prod

/-- Row-major flat index of coordinates `(p, q, r)` in a rank-3 tensor whose
trailing dimension sizes are `d1, d2`. -/
def flat3 (p q r d1 d2 : Nat) : Nat := (p * d1 + q) * d2 + r

/-- Entry of a rank-3 tensor at coordinates `(p, q, r)`. -/
def Tensor.get3 (t : Tensor) (p q r : Nat) : ℚ :=
  t.data (flat3 p q r (t.dim 1) (t.dim 2))

/-- Adding one constant to every entry (used to state shift equivariance). -/
def Tensor.addConst (c : ℚ) (t : Tensor) : Tensor := ⟨t.shape, fun i => t.data i + c⟩

/-- `x[:, -1:, :]` on a rank-3 tensor (SegRNN.py line 40): the last time step,
kept as a length-1 dimension.  `.detach()` only affects autograd. -/
def seqLastOf (t : Tensor) : Tensor :=
  ⟨[t.dim 0, 1, t.dim 2], fun i =>
    t.data ((i / t.dim 2) * (t.dim 1 * t.dim 2) + (t.dim 1 - 1) * t.dim 2 + i % t.dim 2)⟩

/-- Two sizes are broadcast-compatible when they agree or one of them is 1. -/
def bcCompat (a b : Nat) : Bool := a == b || a == 1 || b == 1

/-- Index into a source dimension of size `d` for output coordinate `i`. -/
def bcIdx (d i : Nat) : Nat := if d = 1 then 0 else i

/-- Elementwise binary operation on two rank-3 tensors with torch broadcasting
(`x - seq_last` at SegRNN.py line 41, `y + seq_last` at line 68). -/
def broadcast3 (f : ℚ → ℚ → ℚ) (t u : Tensor) : Option Tensor :=
  if t.shape.length == 3 && u.shape.length == 3 &&
      bcCompat (t.dim 0) (u.dim 0) && bcCompat (t.dim 1) (u.dim 1) &&
      bcCompat (t.dim 2) (u.dim 2) then
    some ⟨[max (t.dim 0) (u.dim 0), max (t.dim 1) (u.dim 1), max (t.dim 2) (u.dim 2)],
      fun i =>
        let o1 := max (t.dim 1) (u.dim 1)
        let o2 := max (t.dim 2) (u.dim 2)
        f (t.data (flat3 (bcIdx (t.dim 0) (i / (o1 * o2))) (bcIdx (t.dim 1) (i % (o1 * o2) / o2))
            (bcIdx (t.dim 2) (i % o2)) (t.dim 1) (t.dim 2)))
          (u.data (flat3 (bcIdx (u.dim 0) (i / (o1 * o2))) (bcIdx (u.dim 1) (i % (o1 * o2) / o2))
            (bcIdx (u.dim 2) (i % o2)) (u.dim 1) (u.dim 2)))⟩
  else none

/-- `.permute(0, 2, 1)` on a rank-3 tensor (SegRNN.py lines 41 and 68). -/
def permute021 (t : Tensor) : Tensor :=
  ⟨[t.dim 0, t.dim 2, t.dim 1], fun i =>
    t.data ((i / (t.dim 2 * t.dim 1)) * (t.dim 1 * t.dim 2) +
      (i % (t.dim 2 * t.dim 1) % t.dim 1) * t.dim 2 +
      i % (t.dim 2 * t.dim 1) / t.dim 1)⟩

/-- `.reshape(-1, d1, d2)` / `.view(-1, d1, d2)`: the leading dimension is
inferred; torch rejects the call when the product of the given sizes is zero or
does not divide the element count. -/
def reshapeNeg1 (d1 d2 : Nat) (t : Tensor) : Option Tensor :=
  if 0 < d1 * d2 ∧ d1 * d2 ∣ t.numel then
    some ⟨[t.numel / (d1 * d2), d1, d2], t.data⟩
  else none

/-- `.view(1, -1, d2)`: the middle dimension is inferred. -/
def reshapeMid1 (d2 : Nat) (t : Tensor) : Option Tensor :=
  if 0 < d2 ∧ d2 ∣ t.numel then
    some ⟨[1, t.numel / d2, d2], t.data⟩
  else none

/-- `.repeat(k, 1, 1)` on a rank-3 tensor: tile the leading dimension `k` times. -/
def repeatD0 (k : Nat) (t : Tensor) : Tensor :=
  ⟨[k * t.dim 0, t.dim 1, t.dim 2], fun i =>
    t.data ((i / (t.dim 1 * t.dim 2) % t.dim 0) * (t.dim 1 * t.dim 2) +
      i % (t.dim 1 * t.dim 2))⟩

/-- `.repeat(1, k, 1)` on a rank-3 tensor: tile the middle dimension `k` times. -/
def repeatD1 (k : Nat) (t : Tensor) : Tensor :=
  ⟨[t.dim 0, k * t.dim 1, t.dim 2], fun i =>
    t.data ((i / (k * t.dim 1 * t.dim 2)) * (t.dim 1 * t.dim 2) +
      (i % (k * t.dim 1 * t.dim 2) / t.dim 2 % t.dim 1) * t.dim 2 + i % t.dim 2)⟩

/-- `.repeat(1, 1, k)` on a rank-3 tensor: tile the trailing dimension `k` times
(`hn.repeat(1, 1, self.seg_num_y)`, SegRNN.py line 62). -/
def repeatD2 (k : Nat) (t : Tensor) : Tensor :=
  ⟨[t.dim 0, t.dim 1, k * t.dim 2], fun i =>
    t.data ((i / (k * t.dim 2)) * t.dim 2 + i % (k * t.dim 2) % t.dim 2)⟩

/-- `torch.cat([t, u], dim=-1)` on rank-3 tensors whose leading dimensions agree
by construction (SegRNN.py lines 54-57). -/
def catLast (t u : Tensor) : Tensor :=
  ⟨[t.dim 0, t.dim 1, t.dim 2 + u.dim 2], fun i =>
    if i % (t.dim 2 + u.dim 2) < t.dim 2 then
      t.data ((i / (t.dim 2 + u.dim 2)) * t.dim 2 + i % (t.dim 2 + u.dim 2))
    else
      u.data ((i / (t.dim 2 + u.dim 2)) * u.dim 2 + (i % (t.dim 2 + u.dim 2) - t.dim 2))⟩

/-- `.unsqueeze(0)` on a rank-2 tensor. -/
def unsqueeze0 (t : Tensor) : Tensor := ⟨[1, t.dim 0, t.dim 1], t.data⟩

/-- `.unsqueeze(1)` on a rank-2 tensor. -/
def unsqueeze1 (t : Tensor) : Tensor := ⟨[t.dim 0, 1, t.dim 1], t.data⟩

/-- `nn.Linear(inF, outF)` applied along the trailing dimension of a rank-3
tensor whose trailing dimension is `inF`. -/
def linearLast (inF outF : Nat) (W : Nat → Nat → ℚ) (B : Nat → ℚ) (t : Tensor) : Tensor :=
  ⟨[t.dim 0, t.dim 1, outF], fun i =>
    (∑ j in Finset.range inF, W (i % outF) j * t.data ((i / outF) * inF + j)) + B (i % outF)⟩

/-- `nn.ReLU()` applied elementwise. -/
def reluT (t : Tensor) : Tensor := ⟨t.shape, fun i => max (t.data i) 0⟩

/-- Truncation of a vector (as a total map) to its first `d` entries. -/
def vecTrunc (d : Nat) (v : Nat → ℚ) : Nat → ℚ := fun j => if j < d then v j else 0

/-- The length-`dim 2` input vector at batch row `q`, sequence position `j` of a
rank-3 tensor, as fed to the GRU cell. -/
def gruRow (t : Tensor) (q j : Nat) : Nat → ℚ :=
  vecTrunc (t.dim 2) fun r => t.data ((q * t.dim 1 + j) * t.dim 2 + r)

/-- Final hidden vector of one GRU layer on batch row `q`: fold the cell over the
row's sequence positions starting from hidden state `h0`. -/
def gruScan (cell : (Nat → ℚ) → (Nat → ℚ) → Nat → ℚ) (t : Tensor) (h0 : Nat → ℚ)
    (q : Nat) : Nat → ℚ :=
  (List.range (t.dim 1)).foldl (fun h j => cell (gruRow t q j) h) h0

/-- The `h_n` output (shape `[1, batch, hidden]`) of `nn.GRU(d, d, num_layers=1,
batch_first=True)`: the per-row final hidden states.  The gate arithmetic of the
cell is library-internal, so `cell` is a parameter of the embedding. -/
def gruHn (cell : (Nat → ℚ) → (Nat → ℚ) → Nat → ℚ) (t : Tensor) (h0 : Nat → Nat → ℚ) :
    Tensor :=
  ⟨[1, t.dim 0, t.dim 2], fun i =>
    gruScan cell t (h0 (i / t.dim 2)) (i / t.dim 2) (i % t.dim 2)⟩

/-- `self.rnn(x)` with the default zero initial hidden state (SegRNN.py line 47):
torch checks that the input is rank 3 with trailing size `d`. -/
def rnnDefault (cell : (Nat → ℚ) → (Nat → ℚ) → Nat → ℚ) (d : Nat) (t : Tensor) :
    Option Tensor :=
  if t.shape.length == 3 && t.dim 2 == d then
    some (gruHn cell t fun _ _ => 0)
  else none

/-- `self.rnn(x, h)` with an explicit initial hidden state (SegRNN.py line 62):
torch additionally checks that `h` has shape `[num_layers, batch, hidden]`,
here `[1, x.size(0), d]`. -/
def rnnWithH (cell : (Nat → ℚ) → (Nat → ℚ) → Nat → ℚ) (d : Nat) (t h : Tensor) :
    Option Tensor :=
  if t.shape.length == 3 && t.dim 2 == d && h.shape == [1, t.dim 0, d] then
    some (gruHn cell t fun q => vecTrunc d fun r => h.data (q * d + r))
  else none

/-- The configuration object read by `SegRNN.__init__` (SegRNN.py lines 9-15).
The dropout probability is not stored: its effect enters through the realized
dropout multipliers of the model. -/
structure Configs where
  seq_len : Nat
  pred_len : Nat
  enc_in : Nat
  d_model : Nat
  seg_len : Nat

/-- The SegRNN module (SegRNN.py lines 5-31): configuration plus the learned
parameter values of its layers.  `cell` is the GRU cell update (input vector and
hidden vector to next hidden vector; its gate arithmetic is library-internal),
`dropMask` the realized elementwise multiplier of `self.predict`'s Dropout
(identically 1 in eval mode). -/
structure SegRNN where
  cfg : Configs
  embW : Nat → Nat → ℚ
  embB : Nat → ℚ
  cell : (Nat → ℚ) → (Nat → ℚ) → Nat → ℚ
  posEmb : Nat → ℚ
  channelEmb : Nat → ℚ
  dropMask : Nat → ℚ
  predW : Nat → Nat → ℚ
  predB : Nat → ℚ

/-- `self.seg_num_x = self.seq_len // self.seg_len` (SegRNN.py line 16). -/
def SegRNN.seg_num_x (M : SegRNN) : Nat := M.cfg.seq_len / M.cfg.seg_len

/-- `self.seg_num_y = self.pred_len // self.seg_len` (SegRNN.py line 17). -/
def SegRNN.seg_num_y (M : SegRNN) : Nat := M.cfg.pred_len / M.cfg.seg_len

/-- `self.pos_emb`, shape `[seg_num_y, d_model // 2]` (SegRNN.py line 26). -/
def SegRNN.posEmbParam (M : SegRNN) : Tensor :=
  ⟨[M.seg_num_y, M.cfg.d_model / 2], M.posEmb⟩

/-- `self.channel_emb`, shape `[enc_in, d_model // 2]` (SegRNN.py line 27). -/
def SegRNN.channelEmbParam (M : SegRNN) : Tensor :=
  ⟨[M.cfg.enc_in, M.cfg.d_model / 2], M.channelEmb⟩

/-- `self.valueEmbedding = nn.Sequential(nn.Linear(seg_len, d_model), nn.ReLU())`
(SegRNN.py lines 20-23). -/
def SegRNN.valueEmbedding (M : SegRNN) (t : Tensor) : Tensor :=
  reluT (linearLast M.cfg.seg_len M.cfg.d_model M.embW M.embB t)

/-- `self.predict = nn.Sequential(nn.Dropout(...), nn.Linear(d_model, seg_len))`
(SegRNN.py lines 28-31), the Dropout realized as the multiplier `dropMask`. -/
def SegRNN.predict (M : SegRNN) (t : Tensor) : Tensor :=
  linearLast M.cfg.d_model M.cfg.seg_len M.predW M.predB
    ⟨t.shape, fun i => M.dropMask i * t.data i⟩

/-- The positional/channel embedding input of the decoder GRU (SegRNN.py lines
54-57): `torch.cat([pos_emb repeated over channels, channel_emb repeated over
output segments], dim=-1).view(-1, 1, d_model).repeat(batch_size, 1, 1)`. -/
def SegRNN.posChanEmb (M : SegRNN) (batch : Nat) : Option Tensor :=
  (reshapeNeg1 1 M.cfg.d_model
      (catLast (repeatD0 M.cfg.enc_in (unsqueeze0 M.posEmbParam))
        (repeatD1 M.seg_num_y (unsqueeze1 M.channelEmbParam)))).map
    (repeatD0 batch)

/-- Everything between the normalization and the denormalization of
`SegRNN.forward` (SegRNN.py lines 43-65): segmentation, value embedding,
encoder GRU, positional/channel embedding, decoder GRU seeded with the repeated
encoder state, projection, and the reshape/permute back towards
`[batch, pred_len, enc_in]` layout. -/
def SegRNN.forwardCore (M : SegRNN) (batch : Nat) (xn : Tensor) : Option Tensor := do
  let xr ← reshapeNeg1 M.seg_num_x M.cfg.seg_len xn
  let hn ← rnnDefault M.cell M.cfg.d_model (M.valueEmbedding xr)
  let pe ← M.posChanEmb batch
  let h2 ← reshapeMid1 M.cfg.d_model (repeatD2 M.seg_num_y hn)
  let hy ← rnnWithH M.cell M.cfg.d_model pe h2
  let y ← reshapeNeg1 M.cfg.enc_in M.cfg.pred_len (M.predict hy)
  pure (permute021 y)

/-- `SegRNN.forward` (SegRNN.py lines 33-71): subtract the (detached) last time
step, permute to channel-major layout, run the segment-wise forecaster core,
permute back and add the last time step. -/
def SegRNN.forward (M : SegRNN) (x : Tensor) : Option Tensor := do
  let xc ← broadcast3 (fun a b => a - b) x (seqLastOf x)
  let y2 ← M.forwardCore (x.dim 0) (permute021 xc)
  broadcast3 (fun a b => a + b) y2 (seqLastOf x)

/-- The segments of one normalized channel series (glossary: split the input
sequence into fixed-length segments). -/
def specSeg (M : SegRNN) (xc : Nat → ℚ) (j : Nat) : Nat → ℚ :=
  fun r => xc (j * M.cfg.seg_len + r)

/-- Embedding of one segment: linear then ReLU into `d_model` dimensions. -/
def specEmb (M : SegRNN) (v : Nat → ℚ) : Nat → ℚ :=
  vecTrunc M.cfg.d_model fun r =>
    max ((∑ j in Finset.range M.cfg.seg_len, M.embW r j * v j) + M.embB r) 0

/-- Encoder on one channel: fold the GRU cell over the embedded segments. -/
def specEncode (M : SegRNN) (xc : Nat → ℚ) : Nat → ℚ :=
  (List.range M.seg_num_x).foldl
    (fun h j => M.cell (specEmb M (specSeg M xc j)) h) fun _ => 0

/-- Decoder input for output segment `i` of channel `ch`: the segment's
positional embedding concatenated with the channel's embedding. -/
def specDecIn (M : SegRNN) (ch i : Nat) : Nat → ℚ :=
  vecTrunc M.cfg.d_model fun r =>
    if r < M.cfg.d_model / 2 then M.posEmb (i * (M.cfg.d_model / 2) + r)
    else M.channelEmb (ch * (M.cfg.d_model / 2) + (r - M.cfg.d_model / 2))

/-- Decoder: one GRU cell step per output segment, from the encoder state. -/
def specDecode (M : SegRNN) (ch : Nat) (h : Nat → ℚ) (i : Nat) : Nat → ℚ :=
  M.cell (specDecIn M ch i) (vecTrunc M.cfg.d_model h)

/-- Projection of one decoder state to one entry of its length-`seg_len`
prediction segment. -/
def specProj (M : SegRNN) (h : Nat → ℚ) (r : Nat) : ℚ :=
  (∑ j in Finset.range M.cfg.d_model, M.predW r j * h j) + M.predB r

/-- The segment-wise recurrent forecaster on one channel series, as the spec
describes the algorithm: normalize by the last value, split into
`seq_len // seg_len` segments of length `seg_len`, embed each segment (linear
then ReLU) into `d_model` dimensions, fold the GRU over the segment embeddings,
take one further GRU step per output segment on its positional/channel
embedding, project each resulting recurrent state back to a length-`seg_len`
segment, concatenate the segments and denormalize. -/
def specForecast (M : SegRNN) (ch : Nat) (xc : Nat → ℚ) (t : Nat) : ℚ :=
  specProj M
      (specDecode M ch (specEncode M fun u => xc u - xc (M.cfg.seq_len - 1))
        (t / M.cfg.seg_len))
      (t % M.cfg.seg_len) +
    xc (M.cfg.seq_len - 1)

/-- The channel-`ch` time series of batch element `b` of a `[B, S, C]` tensor. -/
def chanSeries (x : Tensor) (b ch : Nat) : Nat → ℚ :=
  fun u => x.data ((b * x.dim 1 + u) * x.dim 2 + ch)

/-- Concrete SegRNN instance (seq_len 4, pred_len 2, enc_in 1, d_model 2,
seg_len 2) with zero weights, eval-mode dropout and a cell that returns its
hidden state, used by the witnesses. -/
def segRNN0 : SegRNN :=
  ⟨⟨4, 2, 1, 2, 2⟩, fun _ _ => 0, fun _ => 0, fun _ h => h, fun _ => 0, fun _ => 0,
   fun _ => 1, fun _ _ => 0, fun _ => 0⟩

/-- Concrete SegRNN instance whose segment length 3 does not divide its
sequence length 4, used by the C9 witness. -/
def segRNNbad : SegRNN :=
  ⟨⟨4, 3, 1, 2, 3⟩, fun _ _ => 0, fun _ => 0, fun _ h => h, fun _ => 0, fun _ => 0,
   fun _ => 1, fun _ _ => 0, fun _ => 0⟩

/-- Concrete `[1, 4, 1]` zero input tensor for the witnesses. -/
def x410 : Tensor := ⟨[1, 4, 1], fun _ => 0⟩

/-- The tensor a model parameter holds after the `load_state_dict` copying pass:
the saved tensor when the key is present with an equal shape, the original
tensor otherwise. -/
def sdMerge (sd : StateDict) (k : Nat) (p : ParamT) : ParamT :=
  match List.lookup k sd with
  | some q => if q.shape = p.shape then q else p
  | none => p

/-- Whether the early-stopping break fires within `fuel` epochs starting from `s`. -/
def stopsWithin (T : Trainer σ) : Nat → σ → Bool
  | 0, _ => false
  | fuel+1, s =>
    if epochTestLoss T s < 7 then true else stopsWithin T fuel (epochState T s)

/-- Library state when the loop exits, starting from `s` with `fuel` epochs left. -/
def finalState (T : Trainer σ) : Nat → σ → σ
  | 0, s => s
  | fuel+1, s =>
    if epochTestLoss T s < 7 then epochState T s else finalState T fuel (epochState T s)

/-- Complete characterization of the epoch loop: the four metric lists extend the
accumulator by one entry per epoch that completes without triggering the early
stop, the print log extends by the multiples of 10 among those epochs' indices,
and the body runs once more than the completed epochs exactly when the break
fires. -/
theorem trainLoop_spec (T : Trainer σ) :
    ∀ fuel epoch s acc log cnt,
    trainLoop T fuel epoch s acc log cnt =
      ⟨⟨acc.train_loss ++ (runMetrics T fuel s).map (fun r => r.1),
        acc.test_loss ++ (runMetrics T fuel s).map (fun r => r.2.1),
        acc.train_acc ++ (runMetrics T fuel s).map (fun r => r.2.2.1),
        acc.test_acc ++ (runMetrics T fuel s).map (fun r => r.2.2.2)⟩,
       log ++ (epochsFrom epoch (runMetrics T fuel s).length).filter (fun e => e % 10 == 0),
       finalState T fuel s,
       cnt + (runMetrics T fuel s).length + (if stopsWithin T fuel s then 1 else 0),
       stopsWithin T fuel s⟩ := by
  intro fuel
  induction fuel with
  | zero =>
    intro epoch s acc log cnt
    simp [trainLoop, runMetrics, stopsWithin, finalState, epochsFrom]
  | succ n ih =>
    intro epoch s acc log cnt
    simp only [trainLoop, runMetrics, stopsWithin, finalState, epochTestLoss,
      epochTrainLoss, epochTrainAcc, epochTestAcc, epochState]
    by_cases hc : (T.testStep (T.trainStep s).1).1 < 7
    · simp [hc, epochsFrom]
    · rw [if_neg hc, if_neg hc, if_neg hc, if_neg hc, ih]
      simp only [epochsFrom, List.map_cons, List.length_cons, List.filter_cons,
        RunOutput.mk.injEq, Results.mk.injEq]
      refine ⟨⟨?_, ?_, ?_, ?_⟩, ?_, trivial, by omega, trivial⟩
      · simp [List.append_assoc]
      · simp [List.append_assoc]
      · simp [List.append_assoc]
      · simp [List.append_assoc]
      · by_cases h10 : epoch % 10 = 0 <;> simp [h10, List.append_assoc]

/-- Every entry of `runMetrics` comes from an epoch whose test loss was not below 7:
entries are appended only on the non-breaking branch of the loop. -/
theorem runMetrics_not_lt (T : Trainer σ) :
    ∀ fuel s i, i < (runMetrics T fuel s).length →
      ¬ epochTestLoss T ((epochState T)^[i] s) < 7 := by
  intro fuel
  induction fuel with
  | zero => intro s i hi; simp [runMetrics] at hi
  | succ n ih =>
    intro s i hi
    by_cases hc : epochTestLoss T s < 7
    · simp [runMetrics, hc] at hi
    · cases i with
      | zero => simpa using hc
      | succ m =>
        rw [Function.iterate_succ_apply]
        apply ih
        simp only [runMetrics, if_neg hc, List.length_cons] at hi
        omega

/-- C1: the epoch loop stops as soon as a test loss below the constant 7 is seen:
if the `i`-th executed epoch reports test loss < 7 then the loop body runs exactly
`i + 1` times, so no epoch runs after one whose test loss is below the constant
(train.py lines 150-151). -/
theorem c1_early_stop (T : Trainer σ) (epochs : Nat) (s0 : σ) (i : Nat)
    (hi : i < (train T epochs s0).executed)
    (h7 : epochTestLoss T ((epochState T)^[i] s0) < 7) :
    (train T epochs s0).executed = i + 1 := by
  rw [train, trainLoop_spec] at hi ⊢
  dsimp only at hi ⊢
  by_cases hlt : i < (runMetrics T epochs s0).length
  · exact absurd h7 (runMetrics_not_lt T epochs s0 i hlt)
  · by_cases hs : stopsWithin T epochs s0 <;> simp [hs] at hi ⊢ <;> omega

/-- C1 witness: with `mixTrainer`, epochs 0 and 1 report loss 10, epoch 2 reports
loss 5 < 7, and the loop body runs exactly 3 times. -/
theorem c1_early_stop_witness :
    2 < (train mixTrainer 5 0).executed ∧ (train mixTrainer 5 0).executed = 2 + 1 :=
  ⟨by decide, c1_early_stop mixTrainer 5 0 2 (by decide) (by decide)⟩

/-- The updated-parameter component of `load_state_dict` is a keyed map by `sdMerge`. -/
theorem load_state_dict_fst (model sd : StateDict) :
    (load_state_dict model sd).1 = model.map fun kp => (kp.1, sdMerge sd kp.1 kp.2) := by
  simp only [load_state_dict]
  congr 1
  funext kp
  obtain ⟨a, b⟩ := kp
  simp only [sdMerge]
  cases List.lookup a sd with
  | none => rfl
  | some q => by_cases hsh : q.shape = b.shape <;> simp [hsh]

/-- Looking a key up in a keyed map of an association list. -/
theorem lookup_map_keyed (f : Nat → ParamT → ParamT) :
    ∀ (l : StateDict) (k : Nat) (p : ParamT), List.lookup k l = some p →
      List.lookup k (l.map fun kp => (kp.1, f kp.1 kp.2)) = some (f k p) := by
  intro l
  induction l with
  | nil => intro k p h; simp at h
  | cons kp rest ih =>
    intro k p h
    obtain ⟨a, b⟩ := kp
    by_cases hk : k = a
    · subst hk
      simp only [List.lookup, beq_self_eq_true] at h
      obtain rfl : b = p := by simpa using h
      simp [List.lookup]
    · have hk' : (k == a) = false := by simpa using hk
      simp only [List.lookup, hk'] at h
      simp only [List.map_cons, List.lookup, hk']
      exact ih k p h

/-- The parameter lookup after `load_state_dict`: a key present in the model maps to
the saved tensor when shapes agree and keeps the model tensor otherwise. -/
theorem load_state_dict_lookup (model sd : StateDict) (k : Nat) (p : ParamT)
    (h : List.lookup k model = some p) :
    List.lookup k (load_state_dict model sd).1 = some (sdMerge sd k p) := by
  rw [load_state_dict_fst]
  exact lookup_map_keyed (sdMerge sd) model k p h

/-- C2: checkpoint reading at startup tolerates a saved/current shape mismatch by
skipping the mismatched entries: the guarded load still returns a model (the
RuntimeError raised by the strict load is caught at train.py line 194), a key
whose saved shape matches is loaded from the checkpoint, and a key whose saved
shape differs keeps the model's randomly-initialized tensor. -/
theorem c2_mismatch_skipped (model sd : StateDict) (k : Nat) (p q : ParamT)
    (hm : List.lookup k model = some p) (hs : List.lookup k sd = some q) :
    checkpointLoad model (some (.ok sd)) = .ok (load_state_dict model sd).1 ∧
    (q.shape = p.shape → List.lookup k (load_state_dict model sd).1 = some q) ∧
    (q.shape ≠ p.shape → List.lookup k (load_state_dict model sd).1 = some p) := by
  refine ⟨by simp [checkpointLoad], ?_, ?_⟩ <;> intro hsh <;>
    rw [load_state_dict_lookup model sd k p hm] <;> simp [sdMerge, hs, hsh]

/-- C2 witness: with `modelSD`/`savedSD` (key 0 matches, key 1 mismatches) the
matched parameter is loaded from the checkpoint and the mismatched one keeps
its initial tensor. -/
theorem c2_mismatch_skipped_witness :
    List.lookup 0 (load_state_dict modelSD savedSD).1 = some ⟨[2], [5, 6]⟩ ∧
    List.lookup 1 (load_state_dict modelSD savedSD).1 = some ⟨[3], [0, 0, 0]⟩ :=
  ⟨(c2_mismatch_skipped modelSD savedSD 0 ⟨[2], [0, 0]⟩ ⟨[2], [5, 6]⟩ rfl rfl).2.1 rfl,
   (c2_mismatch_skipped modelSD savedSD 1 ⟨[3], [0, 0, 0]⟩ ⟨[4], [1, 1, 1, 1]⟩ rfl rfl).2.2
     (by decide)⟩

/-- C4 counterexample: a checkpoint-loading failure whose exception class is not
RuntimeError (for example an unpickling error from a corrupted file) is not
caught by the line 190-195 guard, so the process terminates even though the
failure happened inside checkpoint loading. -/
theorem c4_counterexample :
    mainFlow (Except.ok 0) modelSD (some (.error .otherError)) (fun m => Except.ok m) =
      Except.error PyError.otherError := rfl

/-- C4 amended: the guard around checkpoint loading catches exactly RuntimeError.
On RuntimeError from `torch.load` the program proceeds with the untouched
(randomly initialized) parameters; on the RuntimeError raised by a strict
`load_state_dict` it proceeds with the partially updated parameters; any other
exception class raised during loading propagates, as does every failure before
or after the guarded block. -/
theorem c4_only_runtime_error_caught {α β : Type} (pre : Except PyError α)
    (model : StateDict) (file : Option (Except PyError StateDict))
    (post : StateDict → Except PyError β) :
    mainFlow pre model file post =
      match pre, file with
      | .error e, _ => .error e
      | .ok _, none => post model
      | .ok _, some (.error .runtimeError) => post model
      | .ok _, some (.error .otherError) => .error .otherError
      | .ok _, some (.ok sd) => post (load_state_dict model sd).1 := by
  cases pre with
  | error e => rfl
  | ok a =>
    cases file with
    | none => rfl
    | some r =>
      cases r with
      | error e => cases e <;> rfl
      | ok sd =>
        simp only [mainFlow, checkpointLoad, ite_self]
        rfl

/-- C3 counterexample: with `stopTrainer` the first epoch executes (its train and
test steps run and the loop body is entered once) but, because its test loss 5
triggers the early stop, the returned record holds no entry for it: the record
does not contain one value per executed epoch. -/
theorem c3_counterexample :
    (train stopTrainer 1 0).executed = 1 ∧
    (train stopTrainer 1 0).results = Results.empty := by decide

/-- C3 amended: the results record, created fresh from the empty record on every
call, maps each of the four metric names to the ordered per-epoch values of
exactly those epochs that completed without triggering the early stop; the
epoch that triggers the stop is executed but contributes no entry. -/
theorem c3_results_record (T : Trainer σ) (epochs : Nat) (s0 : σ) :
    (train T epochs s0).results.train_loss = (runMetrics T epochs s0).map (fun r => r.1) ∧
    (train T epochs s0).results.test_loss = (runMetrics T epochs s0).map (fun r => r.2.1) ∧
    (train T epochs s0).results.train_acc = (runMetrics T epochs s0).map (fun r => r.2.2.1) ∧
    (train T epochs s0).results.test_acc = (runMetrics T epochs s0).map (fun r => r.2.2.2) ∧
    (train T epochs s0).executed = (runMetrics T epochs s0).length +
      (if (train T epochs s0).stoppedEarly then 1 else 0) := by
  rw [train, trainLoop_spec]
  simp [Results.empty]

/-- C7 counterexample: with `stopTrainer` epoch 0 executes and its index is a
multiple of 10, yet no status line is printed, because the early-stop break at
line 150 precedes the print at line 153. -/
theorem c7_counterexample :
    (train stopTrainer 1 0).executed = 1 ∧ (train stopTrainer 1 0).printed = [] := by
  decide

/-- C7 amended: the status line is printed exactly at the epochs whose index is a
multiple of 10 among the epochs that complete without triggering the early
stop; the epoch that triggers the stop never prints, even when its index is a
multiple of 10. -/
theorem c7_print_schedule (T : Trainer σ) (epochs : Nat) (s0 : σ) :
    (train T epochs s0).printed =
      (epochsFrom 0 (runMetrics T epochs s0).length).filter (fun e => e % 10 == 0) := by
  rw [train, trainLoop_spec]
  simp

/-- C10: the four metric lists stay in lockstep at every reachable point of the
loop (equal lengths are preserved from the accumulator to the result), and the
epoch that triggers the early stop contributes no entry: when the break fires
the record is returned exactly as accumulated, so a run that stops on its
first epoch returns the empty record. -/
theorem c10_metric_lists_lockstep (T : Trainer σ) (fuel epoch : Nat) (s : σ)
    (acc : Results) (log : List Nat) (cnt : Nat)
    (h1 : acc.train_loss.length = acc.test_loss.length)
    (h2 : acc.train_loss.length = acc.train_acc.length)
    (h3 : acc.train_loss.length = acc.test_acc.length) :
    ((trainLoop T fuel epoch s acc log cnt).results.train_loss.length =
        (trainLoop T fuel epoch s acc log cnt).results.test_loss.length ∧
      (trainLoop T fuel epoch s acc log cnt).results.train_loss.length =
        (trainLoop T fuel epoch s acc log cnt).results.train_acc.length ∧
      (trainLoop T fuel epoch s acc log cnt).results.train_loss.length =
        (trainLoop T fuel epoch s acc log cnt).results.test_acc.length) ∧
    (epochTestLoss T s < 7 → 0 < fuel → (trainLoop T fuel epoch s acc log cnt).results = acc) := by
  rw [trainLoop_spec]
  constructor
  · simp only [List.length_append, List.length_map]
    omega
  · intro h7 hf
    cases fuel with
    | zero => omega
    | succ n => simp [runMetrics, h7]

/-- C10 witness: a run whose first epoch stops early keeps the lists in lockstep
and returns the record exactly as accumulated, here the empty record. -/
theorem c10_metric_lists_lockstep_witness :
    ((trainLoop stopTrainer 1 0 0 Results.empty [] 0).results.train_loss.length =
        (trainLoop stopTrainer 1 0 0 Results.empty [] 0).results.test_loss.length ∧
      (trainLoop stopTrainer 1 0 0 Results.empty [] 0).results.train_loss.length =
        (trainLoop stopTrainer 1 0 0 Results.empty [] 0).results.train_acc.length ∧
      (trainLoop stopTrainer 1 0 0 Results.empty [] 0).results.train_loss.length =
        (trainLoop stopTrainer 1 0 0 Results.empty [] 0).results.test_acc.length) ∧
    (trainLoop stopTrainer 1 0 0 Results.empty [] 0).results = Results.empty :=
  ⟨(c10_metric_lists_lockstep stopTrainer 1 0 0 Results.empty [] 0 rfl rfl rfl).1,
   (c10_metric_lists_lockstep stopTrainer 1 0 0 Results.empty [] 0 rfl rfl rfl).2
     (by decide) (by decide)⟩

/-- Shifting every entry leaves the shape unchanged. -/
theorem addConst_shape (c : ℚ) (t : Tensor) : (Tensor.addConst c t).shape = t.shape := rfl

/-- Shifting every entry shifts each flat entry. -/
theorem addConst_data (c : ℚ) (t : Tensor) (i : Nat) :
    (Tensor.addConst c t).data i = t.data i + c := rfl

/-- Taking the last time step commutes with a constant shift. -/
theorem seqLastOf_addConst (c : ℚ) (x : Tensor) :
    seqLastOf (Tensor.addConst c x) = Tensor.addConst c (seqLastOf x) := rfl

/-- The broadcast subtraction of two equally shifted tensors forgets the shift. -/
theorem broadcast3_sub_addConst (t u : Tensor) (c : ℚ) :
    broadcast3 (fun a b => a - b) (Tensor.addConst c t) (Tensor.addConst c u) =
      broadcast3 (fun a b => a - b) t u := by
  show broadcast3 _ ⟨t.shape, fun i => t.data i + c⟩ ⟨u.shape, fun i => u.data i + c⟩ = _
  unfold broadcast3
  dsimp only [Tensor.dim]
  split
  · congr 1
    refine congrArg₂ Tensor.mk rfl ?_
    funext i
    dsimp only
    ring
  · rfl

/-- The broadcast addition of a shifted right operand shifts the result. -/
theorem broadcast3_add_addConst (t u : Tensor) (c : ℚ) :
    broadcast3 (fun a b => a + b) t (Tensor.addConst c u) =
      (broadcast3 (fun a b => a + b) t u).map (Tensor.addConst c) := by
  show broadcast3 _ t ⟨u.shape, fun i => u.data i + c⟩ = _
  unfold broadcast3
  dsimp only [Tensor.dim]
  split
  · rw [Option.map_some']
    congr 1
    refine congrArg₂ Tensor.mk rfl ?_
    funext i
    show _ = _ + c
    dsimp only
    ring
  · rfl

/-- C8: the SegRNN forward pass is equivariant under a constant shift of its
input: the last time step is subtracted before the core network and added back
afterwards (SegRNN.py lines 40-41 and 68), so shifting every input entry by `c`
shifts every output entry by `c`, with identical success or failure behaviour. -/
theorem c8_shift_equivariance (M : SegRNN) (x : Tensor) (c : ℚ) :
    SegRNN.forward M (Tensor.addConst c x) = (SegRNN.forward M x).map (Tensor.addConst c) := by
  unfold SegRNN.forward
  rw [seqLastOf_addConst, broadcast3_sub_addConst]
  rw [show (Tensor.addConst c x).dim 0 = x.dim 0 from rfl]
  cases broadcast3 (fun a b => a - b) x (seqLastOf x) with
  | none => rfl
  | some xc =>
    show (M.forwardCore (x.dim 0) (permute021 xc)).bind _ =
      ((M.forwardCore (x.dim 0) (permute021 xc)).bind _).map _
    cases M.forwardCore (x.dim 0) (permute021 xc) with
    | none => rfl
    | some y2 => exact broadcast3_add_addConst y2 (seqLastOf x) c

/-- Division helper: the row of a flat index. -/
theorem two_div (a r d : Nat) (hr : r < d) : (a * d + r) / d = a := by
  have hd : 0 < d := lt_of_le_of_lt (Nat.zero_le r) hr
  rw [Nat.add_comm, Nat.mul_comm, Nat.add_mul_div_left _ _ hd, Nat.div_eq_of_lt hr,
    Nat.zero_add]

/-- Modulo helper: the column of a flat index. -/
theorem two_mod (a r d : Nat) (hr : r < d) : (a * d + r) % d = r := by
  rw [Nat.add_comm, Nat.mul_comm, Nat.add_mul_mod_self_left, Nat.mod_eq_of_lt hr]

/-- The trailing block of a flat rank-3 index is below the block size. -/
theorem flat3_block_lt (q r d1 d2 : Nat) (hq : q < d1) (hr : r < d2) :
    q * d2 + r < d1 * d2 := by
  have h1 : q * d2 + r < (q + 1) * d2 := by
    have h2 : (q + 1) * d2 = q * d2 + d2 := by ring
    omega
  exact lt_of_lt_of_le h1 (Nat.mul_le_mul_right d2 hq)

/-- Flat index as leading coordinate times block plus trailing block. -/
theorem flat3_split (p q r d1 d2 : Nat) :
    flat3 p q r d1 d2 = p * (d1 * d2) + (q * d2 + r) := by
  unfold flat3; ring

/-- Leading coordinate of a flat rank-3 index. -/
theorem flat3_div (p q r d1 d2 : Nat) (hq : q < d1) (hr : r < d2) :
    flat3 p q r d1 d2 / (d1 * d2) = p := by
  rw [flat3_split]
  exact two_div p _ _ (flat3_block_lt q r d1 d2 hq hr)

/-- Middle coordinate of a flat rank-3 index. -/
theorem flat3_mod_div (p q r d1 d2 : Nat) (hq : q < d1) (hr : r < d2) :
    flat3 p q r d1 d2 % (d1 * d2) / d2 = q := by
  rw [flat3_split, two_mod p _ _ (flat3_block_lt q r d1 d2 hq hr)]
  exact two_div q r d2 hr

/-- Trailing coordinate of a flat rank-3 index. -/
theorem flat3_mod (p q r d1 d2 : Nat) (hr : r < d2) :
    flat3 p q r d1 d2 % d2 = r := two_mod _ r d2 hr

/-- In-range output coordinates index the source dimension directly. -/
theorem bcIdx_lt {d i : Nat} (h : i < d) : bcIdx d i = i := by
  unfold bcIdx
  split
  · omega
  · rfl

/-- A broadcast dimension of size one always indexes its only entry. -/
theorem bcIdx_one (i : Nat) : bcIdx 1 i = 0 := rfl

/-- `x[:, -1:, :]` of a `[B, S, C]` tensor: shape `[B, 1, C]` and entries from
time step `S - 1`. -/
theorem seqLastOf_spec (B S C : Nat) (xd : Nat → ℚ) :
    (seqLastOf ⟨[B, S, C], xd⟩).shape = [B, 1, C] ∧
    ∀ p r, r < C → (seqLastOf ⟨[B, S, C], xd⟩).get3 p 0 r = xd (flat3 p (S - 1) r S C) := by
  refine ⟨rfl, ?_⟩
  intro p r hr
  have hidx : flat3 p 0 r 1 C = p * C + r := by unfold flat3; ring
  have hd1 : (seqLastOf ⟨[B, S, C], xd⟩).dim 1 = 1 := rfl
  have hd2 : (seqLastOf ⟨[B, S, C], xd⟩).dim 2 = C := rfl
  unfold Tensor.get3
  rw [hd1, hd2, hidx]
  show xd ((p * C + r) / C * (S * C) + (S - 1) * C + (p * C + r) % C) = _
  rw [two_div p r C hr, two_mod p r C hr]
  congr 1
  unfold flat3
  ring

/-- Broadcast binary operation of a `[a, b, c]` tensor with a `[a, 1, c]` tensor:
the result has shape `[a, b, c]` and combines each entry with the middle-index-0
entry of the second operand. -/
theorem broadcast3_spec (f : ℚ → ℚ → ℚ) (a b c : Nat) (dt du : Nat → ℚ) (hb : 0 < b) :
    ∃ v, broadcast3 f ⟨[a, b, c], dt⟩ ⟨[a, 1, c], du⟩ = some v ∧
      v.shape = [a, b, c] ∧
      ∀ p q r, p < a → q < b → r < c →
        v.get3 p q r = f (dt (flat3 p q r b c)) (du (p * c + r)) := by
  have hmax0 : a ⊔ a = a := Nat.max_self a
  have hmax1 : b ⊔ 1 = b := by omega
  have hmax2 : c ⊔ c = c := Nat.max_self c
  refine ⟨⟨[a, b, c], fun i =>
      f (dt (flat3 (bcIdx a (i / (b * c))) (bcIdx b (i % (b * c) / c)) (bcIdx c (i % c)) b c))
        (du (flat3 (bcIdx a (i / (b * c))) (bcIdx 1 (i % (b * c) / c)) (bcIdx c (i % c)) 1 c))⟩,
    ?_, rfl, ?_⟩
  · unfold broadcast3
    rw [if_pos ?hc]
    case hc => simp [bcCompat, Tensor.dim]
    show some (⟨[a ⊔ a, b ⊔ 1, c ⊔ c], fun i =>
        f (dt (flat3 (bcIdx a (i / ((b ⊔ 1) * (c ⊔ c)))) (bcIdx b (i % ((b ⊔ 1) * (c ⊔ c)) / (c ⊔ c)))
            (bcIdx c (i % (c ⊔ c))) b c))
          (du (flat3 (bcIdx a (i / ((b ⊔ 1) * (c ⊔ c)))) (bcIdx 1 (i % ((b ⊔ 1) * (c ⊔ c)) / (c ⊔ c)))
            (bcIdx c (i % (c ⊔ c))) 1 c))⟩ : Tensor) = _
    rw [hmax0, hmax1, hmax2]
  · intro p q r hp hq hr
    have hu : flat3 p 0 r 1 c = p * c + r := by unfold flat3; ring
    show f (dt (flat3 (bcIdx a (flat3 p q r b c / (b * c)))
        (bcIdx b (flat3 p q r b c % (b * c) / c)) (bcIdx c (flat3 p q r b c % c)) b c))
      (du (flat3 (bcIdx a (flat3 p q r b c / (b * c)))
        (bcIdx 1 (flat3 p q r b c % (b * c) / c)) (bcIdx c (flat3 p q r b c % c)) 1 c)) = _
    rw [flat3_div p q r b c hq hr, flat3_mod_div p q r b c hq hr, flat3_mod p q r b c hr]
    simp only [bcIdx_lt hp, bcIdx_lt hq, bcIdx_lt hr, bcIdx_one]
    rw [hu]

/-- `.permute(0, 2, 1)` of a `[a, b, c]` tensor: shape `[a, c, b]`, transposed entries. -/
theorem permute021_spec (a b c : Nat) (dt : Nat → ℚ) :
    (permute021 ⟨[a, b, c], dt⟩).shape = [a, c, b] ∧
    ∀ p q r, q < c → r < b →
      (permute021 ⟨[a, b, c], dt⟩).get3 p q r = dt (flat3 p r q b c) := by
  refine ⟨rfl, ?_⟩
  intro p q r hq hr
  have h1 : flat3 p q r c b / (c * b) = p := flat3_div p q r c b hq hr
  have h2 : flat3 p q r c b % (c * b) = q * b + r := by
    rw [flat3_split]
    exact two_mod _ _ _ (flat3_block_lt q r c b hq hr)
  show dt (flat3 p q r c b / (c * b) * (b * c) + flat3 p q r c b % (c * b) % b * c +
      flat3 p q r c b % (c * b) / b) = _
  rw [h1, h2, two_mod q r b hr, two_div q r b hr]
  congr 1
  unfold flat3
  ring

/-- Successful `.reshape(-1, d1, d2)`. -/
theorem reshapeNeg1_eq (d1 d2 : Nat) (t : Tensor) (h1 : 0 < d1 * d2)
    (h2 : d1 * d2 ∣ t.numel) :
    reshapeNeg1 d1 d2 t = some ⟨[t.numel / (d1 * d2), d1, d2], t.data⟩ := by
  unfold reshapeNeg1
  rw [if_pos ⟨h1, h2⟩]

/-- Failing `.reshape(-1, d1, d2)`. -/
theorem reshapeNeg1_none (d1 d2 : Nat) (t : Tensor)
    (h : ¬(0 < d1 * d2 ∧ d1 * d2 ∣ t.numel)) : reshapeNeg1 d1 d2 t = none := by
  unfold reshapeNeg1
  rw [if_neg h]

/-- Successful `.view(1, -1, d2)`. -/
theorem reshapeMid1_eq (d2 : Nat) (t : Tensor) (h1 : 0 < d2) (h2 : d2 ∣ t.numel) :
    reshapeMid1 d2 t = some ⟨[1, t.numel / d2, d2], t.data⟩ := by
  unfold reshapeMid1
  rw [if_pos ⟨h1, h2⟩]

/-- Successful first GRU call on a `[a, L, d]` input. -/
theorem rnnDefault_eq (cell : (Nat → ℚ) → (Nat → ℚ) → Nat → ℚ) (d a L : Nat)
    (td : Nat → ℚ) :
    rnnDefault cell d ⟨[a, L, d], td⟩ =
      some (gruHn cell ⟨[a, L, d], td⟩ fun _ _ => 0) := by
  unfold rnnDefault
  rw [if_pos]
  simp [Tensor.dim]

/-- Successful second GRU call: the explicit initial hidden state must have shape
`[1, batch, d]`. -/
theorem rnnWithH_eq (cell : (Nat → ℚ) → (Nat → ℚ) → Nat → ℚ) (d a L : Nat)
    (td : Nat → ℚ) (h : Tensor) (hh : h.shape = [1, a, d]) :
    rnnWithH cell d ⟨[a, L, d], td⟩ h =
      some (gruHn cell ⟨[a, L, d], td⟩ fun q => vecTrunc d fun r => h.data (q * d + r)) := by
  unfold rnnWithH
  rw [if_pos]
  simp [Tensor.dim, hh]

/-- The second GRU call raises when the hidden state's batch size differs from the
input's batch size. -/
theorem rnnWithH_none (cell : (Nat → ℚ) → (Nat → ℚ) → Nat → ℚ) (d : Nat) (t h : Tensor)
    (hne : h.shape ≠ [1, t.dim 0, d]) : rnnWithH cell d t h = none := by
  unfold rnnWithH
  rw [if_neg]
  simp [hne]

/-- Entry of the `h_n` tensor: the scanned final hidden state of its row. -/
theorem gruHn_get (cell : (Nat → ℚ) → (Nat → ℚ) → Nat → ℚ) (a L d : Nat)
    (td : Nat → ℚ) (h0 : Nat → Nat → ℚ) (q r : Nat) (hr : r < d) :
    (gruHn cell ⟨[a, L, d], td⟩ h0).get3 0 q r =
      gruScan cell ⟨[a, L, d], td⟩ (h0 q) q r := by
  have hidx : flat3 0 q r a d = q * d + r := by unfold flat3; ring
  show gruScan cell ⟨[a, L, d], td⟩ (h0 (flat3 0 q r a d / d)) (flat3 0 q r a d / d)
      (flat3 0 q r a d % d) = _
  rw [hidx, two_div q r d hr, two_mod q r d hr]

/-- Entry of a trailing-dimension linear layer on a `[a, L, inF]` tensor. -/
theorem linearLast_get (inF outF : Nat) (W : Nat → Nat → ℚ) (Bv : Nat → ℚ)
    (a L : Nat) (td : Nat → ℚ) (p q r : Nat) (hr : r < outF) :
    (linearLast inF outF W Bv ⟨[a, L, inF], td⟩).get3 p q r =
      (∑ j in Finset.range inF, W r j * td ((p * L + q) * inF + j)) + Bv r := by
  show (∑ j in Finset.range inF, W (flat3 p q r L outF % outF) j *
      td (flat3 p q r L outF / outF * inF + j)) + Bv (flat3 p q r L outF % outF) = _
  have h1 : flat3 p q r L outF = (p * L + q) * outF + r := rfl
  rw [h1, two_div _ r outF hr, two_mod _ r outF hr]

/-- Entry of an elementwise ReLU. -/
theorem reluT_get (t : Tensor) (p q r : Nat) :
    (reluT t).get3 p q r = max (t.get3 p q r) 0 := rfl

/-- The decoder input tensor of SegRNN.py lines 54-57: it succeeds for even
`d_model`, has shape `[batch * enc_in * seg_num_y, 1, d_model]`, and its row for
batch element `bb`, channel `ch`, output segment `i` is the concatenation of the
segment's positional embedding and the channel's embedding. -/
theorem posChanEmb_spec (M : SegRNN) (batch e : Nat) (hD : M.cfg.d_model = 2 * e)
    (he : 0 < e) :
    ∃ pe, M.posChanEmb batch = some pe ∧
      pe.shape = [batch * (M.cfg.enc_in * M.seg_num_y), 1, M.cfg.d_model] ∧
      ∀ bb ch i r, ch < M.cfg.enc_in → i < M.seg_num_y → r < M.cfg.d_model →
        pe.data (((bb * M.cfg.enc_in + ch) * M.seg_num_y + i) * M.cfg.d_model + r) =
          specDecIn M ch i r := by
  have he2 : M.cfg.d_model / 2 = e := by omega
  have hD0 : 0 < M.cfg.d_model := by omega
  have hee : M.cfg.d_model / 2 + M.cfg.d_model / 2 = M.cfg.d_model := by omega
  have hnum2 : (catLast (repeatD0 M.cfg.enc_in (unsqueeze0 M.posEmbParam))
      (repeatD1 M.seg_num_y (unsqueeze1 M.channelEmbParam))).numel =
      M.cfg.enc_in * M.seg_num_y * M.cfg.d_model := by
    show M.cfg.enc_in * 1 *
        (M.seg_num_y * ((M.cfg.d_model / 2 + M.cfg.d_model / 2) * 1)) = _
    rw [hee]
    ring
  have hdvd : 1 * M.cfg.d_model ∣ (catLast (repeatD0 M.cfg.enc_in (unsqueeze0 M.posEmbParam))
      (repeatD1 M.seg_num_y (unsqueeze1 M.channelEmbParam))).numel := by
    rw [hnum2]
    exact ⟨M.cfg.enc_in * M.seg_num_y, by ring⟩
  have h1D : 0 < 1 * M.cfg.d_model := by omega
  have hdiv : (catLast (repeatD0 M.cfg.enc_in (unsqueeze0 M.posEmbParam))
      (repeatD1 M.seg_num_y (unsqueeze1 M.channelEmbParam))).numel / (1 * M.cfg.d_model) =
      M.cfg.enc_in * M.seg_num_y := by
    rw [hnum2, one_mul]
    exact Nat.mul_div_cancel _ hD0
  unfold SegRNN.posChanEmb
  rw [reshapeNeg1_eq _ _ _ h1D hdvd, Option.map_some']
  refine ⟨_, rfl, ?_, ?_⟩
  · show [batch * ((catLast (repeatD0 M.cfg.enc_in (unsqueeze0 M.posEmbParam))
        (repeatD1 M.seg_num_y (unsqueeze1 M.channelEmbParam))).numel / (1 * M.cfg.d_model)),
      1, M.cfg.d_model] = _
    rw [hdiv]
  · intro bb ch i r hch hi hr
    have hq' : (((bb * M.cfg.enc_in + ch) * M.seg_num_y + i) * M.cfg.d_model + r) /
        (1 * M.cfg.d_model) = (bb * M.cfg.enc_in + ch) * M.seg_num_y + i := by
      rw [one_mul]
      exact two_div _ r _ hr
    have hq'' : (((bb * M.cfg.enc_in + ch) * M.seg_num_y + i) * M.cfg.d_model + r) %
        (1 * M.cfg.d_model) = r := by
      rw [one_mul]
      exact two_mod _ r _ hr
    have hmod : ((bb * M.cfg.enc_in + ch) * M.seg_num_y + i) %
        (M.cfg.enc_in * M.seg_num_y) = ch * M.seg_num_y + i := by
      have hsplit : (bb * M.cfg.enc_in + ch) * M.seg_num_y + i =
          bb * (M.cfg.enc_in * M.seg_num_y) + (ch * M.seg_num_y + i) := by ring
      rw [hsplit]
      exact two_mod bb _ _ (flat3_block_lt ch i _ _ hch hi)
    show (catLast (repeatD0 M.cfg.enc_in (unsqueeze0 M.posEmbParam))
        (repeatD1 M.seg_num_y (unsqueeze1 M.channelEmbParam))).data
        (((((bb * M.cfg.enc_in + ch) * M.seg_num_y + i) * M.cfg.d_model + r) /
            (1 * M.cfg.d_model) %
            ((catLast (repeatD0 M.cfg.enc_in (unsqueeze0 M.posEmbParam))
              (repeatD1 M.seg_num_y (unsqueeze1 M.channelEmbParam))).numel /
              (1 * M.cfg.d_model))) * (1 * M.cfg.d_model) +
          (((bb * M.cfg.enc_in + ch) * M.seg_num_y + i) * M.cfg.d_model + r) %
            (1 * M.cfg.d_model)) = _
    rw [hq', hq'', hdiv, hmod, one_mul]
    have hk1 : ((ch * M.seg_num_y + i) * M.cfg.d_model + r) / M.cfg.d_model =
        ch * M.seg_num_y + i := two_div _ r _ hr
    have hk2 : ((ch * M.seg_num_y + i) * M.cfg.d_model + r) % M.cfg.d_model = r :=
      two_mod _ r _ hr
    show (if ((ch * M.seg_num_y + i) * M.cfg.d_model + r) %
          (M.cfg.d_model / 2 + M.cfg.d_model / 2) < M.cfg.d_model / 2 then
        (repeatD0 M.cfg.enc_in (unsqueeze0 M.posEmbParam)).data
          ((((ch * M.seg_num_y + i) * M.cfg.d_model + r) /
              (M.cfg.d_model / 2 + M.cfg.d_model / 2)) * (M.cfg.d_model / 2) +
            ((ch * M.seg_num_y + i) * M.cfg.d_model + r) %
              (M.cfg.d_model / 2 + M.cfg.d_model / 2))
      else
        (repeatD1 M.seg_num_y (unsqueeze1 M.channelEmbParam)).data
          ((((ch * M.seg_num_y + i) * M.cfg.d_model + r) /
              (M.cfg.d_model / 2 + M.cfg.d_model / 2)) * (M.cfg.d_model / 2) +
            (((ch * M.seg_num_y + i) * M.cfg.d_model + r) %
              (M.cfg.d_model / 2 + M.cfg.d_model / 2) - M.cfg.d_model / 2))) = _
    rw [hee, hk1, hk2]
    unfold specDecIn vecTrunc
    rw [if_pos hr]
    by_cases hre : r < M.cfg.d_model / 2
    · rw [if_pos hre]
      show _ = if r < M.cfg.d_model / 2 then M.posEmb (i * (M.cfg.d_model / 2) + r)
        else M.channelEmb (ch * (M.cfg.d_model / 2) + (r - M.cfg.d_model / 2))
      rw [if_pos hre]
      show M.posEmb ((((ch * M.seg_num_y + i) * (M.cfg.d_model / 2) + r) /
            (M.seg_num_y * (M.cfg.d_model / 2)) % 1) * (M.seg_num_y * (M.cfg.d_model / 2)) +
          ((ch * M.seg_num_y + i) * (M.cfg.d_model / 2) + r) %
            (M.seg_num_y * (M.cfg.d_model / 2))) = _
      rw [Nat.mod_one, Nat.zero_mul, Nat.zero_add]
      congr 1
      have hsplit : (ch * M.seg_num_y + i) * (M.cfg.d_model / 2) + r =
          ch * (M.seg_num_y * (M.cfg.d_model / 2)) + (i * (M.cfg.d_model / 2) + r) := by
        ring
      rw [hsplit]
      exact two_mod ch _ _ (flat3_block_lt i r _ _ hi hre)
    · rw [if_neg hre]
      show _ = if r < M.cfg.d_model / 2 then M.posEmb (i * (M.cfg.d_model / 2) + r)
        else M.channelEmb (ch * (M.cfg.d_model / 2) + (r - M.cfg.d_model / 2))
      rw [if_neg hre]
      show M.channelEmb ((((ch * M.seg_num_y + i) * (M.cfg.d_model / 2) +
            (r - M.cfg.d_model / 2)) / (M.seg_num_y * 1 * (M.cfg.d_model / 2))) *
            (1 * (M.cfg.d_model / 2)) +
          (((ch * M.seg_num_y + i) * (M.cfg.d_model / 2) + (r - M.cfg.d_model / 2)) %
              (M.seg_num_y * 1 * (M.cfg.d_model / 2)) / (M.cfg.d_model / 2) % 1) *
            (M.cfg.d_model / 2) +
          ((ch * M.seg_num_y + i) * (M.cfg.d_model / 2) + (r - M.cfg.d_model / 2)) %
            (M.cfg.d_model / 2)) = _
      rw [Nat.mod_one, Nat.zero_mul, Nat.add_zero, Nat.mul_one, Nat.one_mul]
      have hrb : r - M.cfg.d_model / 2 < M.cfg.d_model / 2 := by omega
      have hsplit : (ch * M.seg_num_y + i) * (M.cfg.d_model / 2) + (r - M.cfg.d_model / 2) =
          ch * (M.seg_num_y * (M.cfg.d_model / 2)) +
            (i * (M.cfg.d_model / 2) + (r - M.cfg.d_model / 2)) := by ring
      have hdivc : ((ch * M.seg_num_y + i) * (M.cfg.d_model / 2) + (r - M.cfg.d_model / 2)) /
          (M.seg_num_y * (M.cfg.d_model / 2)) = ch := by
        rw [hsplit]
        exact two_div ch _ _ (flat3_block_lt i _ _ _ hi hrb)
      have hmodc : ((ch * M.seg_num_y + i) * (M.cfg.d_model / 2) + (r - M.cfg.d_model / 2)) %
          (M.cfg.d_model / 2) = r - M.cfg.d_model / 2 :=
        two_mod _ _ _ hrb
      rw [hdivc, hmodc]

/-- Flat-index form of the last-time-step slice. -/
theorem seqLastOf_data (B S C : Nat) (xd : Nat → ℚ) (p r : Nat) (hr : r < C) :
    (seqLastOf ⟨[B, S, C], xd⟩).data (p * C + r) = xd (flat3 p (S - 1) r S C) := by
  show xd ((p * C + r) / C * (S * C) + (S - 1) * C + (p * C + r) % C) = _
  rw [two_div p r C hr, two_mod p r C hr]
  congr 1
  unfold flat3
  ring

/-- The normalization `x - seq_last` of SegRNN.py line 41 on a `[B, S, C]` input:
it succeeds and each entry becomes the entry minus its channel's last time step. -/
theorem sub_seqLast_spec (B S C : Nat) (xd : Nat → ℚ) (hS : 0 < S) :
    ∃ xc, broadcast3 (fun a b => a - b) ⟨[B, S, C], xd⟩ (seqLastOf ⟨[B, S, C], xd⟩) =
        some xc ∧
      xc.shape = [B, S, C] ∧
      ∀ p q r, p < B → q < S → r < C →
        xc.get3 p q r = xd (flat3 p q r S C) - xd (flat3 p (S - 1) r S C) := by
  obtain ⟨v, h1, h2, h3⟩ := broadcast3_spec (fun a b => a - b) B S C xd
    (seqLastOf ⟨[B, S, C], xd⟩).data hS
  refine ⟨v, h1, h2, ?_⟩
  intro p q r hp hq hr
  rw [h3 p q r hp hq hr, seqLastOf_data B S C xd p r hr]

/-- The denormalization `y.permute(0, 2, 1) + seq_last` of SegRNN.py line 68 on a
`[B, C, P]` tensor: it succeeds with shape `[B, P, C]` and adds the channel's
last input time step back to every forecast entry. -/
theorem add_seqLast_perm_spec (B S C P : Nat) (xd yd : Nat → ℚ) (hP : 0 < P) :
    ∃ y, broadcast3 (fun a b => a + b) (permute021 ⟨[B, C, P], yd⟩)
        (seqLastOf ⟨[B, S, C], xd⟩) = some y ∧
      y.shape = [B, P, C] ∧
      ∀ p q r, p < B → q < P → r < C →
        y.get3 p q r = yd (flat3 p r q C P) + xd (flat3 p (S - 1) r S C) := by
  obtain ⟨v, h1, h2, h3⟩ := broadcast3_spec (fun a b => a + b) B P C
    (permute021 ⟨[B, C, P], yd⟩).data (seqLastOf ⟨[B, S, C], xd⟩).data hP
  refine ⟨v, h1, h2, ?_⟩
  intro p q r hp hq hr
  rw [h3 p q r hp hq hr, seqLastOf_data B S C xd p r hr,
    show (permute021 ⟨[B, C, P], yd⟩).data (flat3 p q r P C) = yd (flat3 p r q C P) from
      (permute021_spec B C P yd).2 p q r hq hr]

/-- The encoder GRU call of SegRNN.py line 47 on the embedded segments always
succeeds: the value embedding ends in a `d_model`-sized dimension. -/
theorem rnn_valueEmbedding_eq (M : SegRNN) (a L : Nat) (td : Nat → ℚ) :
    rnnDefault M.cell M.cfg.d_model (M.valueEmbedding ⟨[a, L, M.cfg.seg_len], td⟩) =
      some (gruHn M.cell (M.valueEmbedding ⟨[a, L, M.cfg.seg_len], td⟩) fun _ _ => 0) :=
  rnnDefault_eq M.cell M.cfg.d_model a L
    (M.valueEmbedding ⟨[a, L, M.cfg.seg_len], td⟩).data

/-- A GRU over a single sequence position is one cell application. -/
theorem gruScan_one (cell : (Nat → ℚ) → (Nat → ℚ) → Nat → ℚ) (a d : Nat)
    (td : Nat → ℚ) (h0 : Nat → ℚ) (q : Nat) :
    gruScan cell ⟨[a, 1, d], td⟩ h0 q = cell (gruRow ⟨[a, 1, d], td⟩ q 0) h0 := by
  show (List.range 1).foldl _ h0 = _
  rw [show List.range 1 = [0] from rfl]
  rfl

/-- Master theorem for the successful forward pass: on a `[B, seq_len, enc_in]`
input with exact segment divisions (and even positive `d_model`), `forward`
returns a `[B, pred_len, enc_in]` tensor whose every entry is the projected
decoder state of its output segment — the segment-wise forecaster computed
per batch element and channel — re-denormalized, with the realized dropout
multipliers applied to the decoder state before projection. -/
theorem forward_spec (M : SegRNN) (B e : Nat) (xd : Nat → ℚ)
    (hW : 0 < M.cfg.seg_len) (hS : 0 < M.cfg.seq_len) (hP : 0 < M.cfg.pred_len)
    (hC : 0 < M.cfg.enc_in) (hD : M.cfg.d_model = 2 * e) (he : 0 < e)
    (hdS : M.cfg.seg_len ∣ M.cfg.seq_len) (hdP : M.cfg.seg_len ∣ M.cfg.pred_len) :
    ∃ y, SegRNN.forward M ⟨[B, M.cfg.seq_len, M.cfg.enc_in], xd⟩ = some y ∧
      y.shape = [B, M.cfg.pred_len, M.cfg.enc_in] ∧
      ∀ bb t ch, bb < B → t < M.cfg.pred_len → ch < M.cfg.enc_in →
        y.get3 bb t ch =
          (∑ j in Finset.range M.cfg.d_model,
            M.predW (t % M.cfg.seg_len) j *
              (M.dropMask (((bb * M.cfg.enc_in + ch) * M.seg_num_y + t / M.cfg.seg_len) *
                  M.cfg.d_model + j) *
                specDecode M ch
                  (specEncode M fun u =>
                    xd (flat3 bb u ch M.cfg.seq_len M.cfg.enc_in) -
                      xd (flat3 bb (M.cfg.seq_len - 1) ch M.cfg.seq_len M.cfg.enc_in))
                  (t / M.cfg.seg_len) j)) +
          M.predB (t % M.cfg.seg_len) +
          xd (flat3 bb (M.cfg.seq_len - 1) ch M.cfg.seq_len M.cfg.enc_in) := by
  have hNW : M.seg_num_x * M.cfg.seg_len = M.cfg.seq_len := Nat.div_mul_cancel hdS
  have hmW : M.seg_num_y * M.cfg.seg_len = M.cfg.pred_len := Nat.div_mul_cancel hdP
  have hD0 : 0 < M.cfg.d_model := by omega
  obtain ⟨xc, hxc1, hxc2, hxc3⟩ :=
    sub_seqLast_spec B M.cfg.seq_len M.cfg.enc_in xd hS
  obtain ⟨xcsh, xcd⟩ := xc
  obtain rfl : xcsh = [B, M.cfg.seq_len, M.cfg.enc_in] := hxc2
  have hnum_xn : (permute021 (⟨[B, M.cfg.seq_len, M.cfg.enc_in], xcd⟩ : Tensor)).numel =
      B * (M.cfg.enc_in * (M.cfg.seq_len * 1)) := rfl
  have hxr_pos : 0 < M.seg_num_x * M.cfg.seg_len := by rw [hNW]; exact hS
  have hxr_dvd : M.seg_num_x * M.cfg.seg_len ∣
      (permute021 (⟨[B, M.cfg.seq_len, M.cfg.enc_in], xcd⟩ : Tensor)).numel := by
    rw [hnum_xn, hNW]
    exact ⟨B * M.cfg.enc_in, by ring⟩
  have hxr_dim : (permute021 (⟨[B, M.cfg.seq_len, M.cfg.enc_in], xcd⟩ : Tensor)).numel /
      (M.seg_num_x * M.cfg.seg_len) = B * M.cfg.enc_in := by
    rw [hnum_xn, hNW,
      show B * (M.cfg.enc_in * (M.cfg.seq_len * 1)) =
        B * M.cfg.enc_in * M.cfg.seq_len by ring]
    exact Nat.mul_div_cancel _ hS
  obtain ⟨pe, hpe1, hpe2, hpe3⟩ := posChanEmb_spec M B e hD he
  obtain ⟨pesh, ped⟩ := pe
  obtain rfl : pesh = [B * (M.cfg.enc_in * M.seg_num_y), 1, M.cfg.d_model] := hpe2
  have hnum_h : (repeatD2 M.seg_num_y (gruHn M.cell
      (M.valueEmbedding ⟨[B * M.cfg.enc_in, M.seg_num_x, M.cfg.seg_len],
        (permute021 (⟨[B, M.cfg.seq_len, M.cfg.enc_in], xcd⟩ : Tensor)).data⟩)
      fun _ _ => 0)).numel =
      1 * (B * M.cfg.enc_in * (M.seg_num_y * M.cfg.d_model * 1)) := rfl
  have hh_dvd : M.cfg.d_model ∣ (repeatD2 M.seg_num_y (gruHn M.cell
      (M.valueEmbedding ⟨[B * M.cfg.enc_in, M.seg_num_x, M.cfg.seg_len],
        (permute021 (⟨[B, M.cfg.seq_len, M.cfg.enc_in], xcd⟩ : Tensor)).data⟩)
      fun _ _ => 0)).numel := by
    rw [hnum_h]
    exact ⟨B * M.cfg.enc_in * M.seg_num_y, by ring⟩
  have hh_dim : (repeatD2 M.seg_num_y (gruHn M.cell
      (M.valueEmbedding ⟨[B * M.cfg.enc_in, M.seg_num_x, M.cfg.seg_len],
        (permute021 (⟨[B, M.cfg.seq_len, M.cfg.enc_in], xcd⟩ : Tensor)).data⟩)
      fun _ _ => 0)).numel / M.cfg.d_model = B * (M.cfg.enc_in * M.seg_num_y) := by
    rw [hnum_h,
      show 1 * (B * M.cfg.enc_in * (M.seg_num_y * M.cfg.d_model * 1)) =
        B * (M.cfg.enc_in * M.seg_num_y) * M.cfg.d_model by ring]
    exact Nat.mul_div_cancel _ hD0
  have hnum_p : (M.predict (gruHn M.cell
      (⟨[B * (M.cfg.enc_in * M.seg_num_y), 1, M.cfg.d_model], ped⟩ : Tensor)
      fun q => vecTrunc M.cfg.d_model fun r =>
        (⟨[1, B * (M.cfg.enc_in * M.seg_num_y), M.cfg.d_model],
          (repeatD2 M.seg_num_y (gruHn M.cell
            (M.valueEmbedding ⟨[B * M.cfg.enc_in, M.seg_num_x, M.cfg.seg_len],
              (permute021 (⟨[B, M.cfg.seq_len, M.cfg.enc_in], xcd⟩ : Tensor)).data⟩)
            fun _ _ => 0)).data⟩ : Tensor).data (q * M.cfg.d_model + r))).numel =
      1 * (B * (M.cfg.enc_in * M.seg_num_y) * (M.cfg.seg_len * 1)) := rfl
  have hp_pos : 0 < M.cfg.enc_in * M.cfg.pred_len := Nat.mul_pos hC hP
  have hp_dvd : M.cfg.enc_in * M.cfg.pred_len ∣ (M.predict (gruHn M.cell
      (⟨[B * (M.cfg.enc_in * M.seg_num_y), 1, M.cfg.d_model], ped⟩ : Tensor)
      fun q => vecTrunc M.cfg.d_model fun r =>
        (⟨[1, B * (M.cfg.enc_in * M.seg_num_y), M.cfg.d_model],
          (repeatD2 M.seg_num_y (gruHn M.cell
            (M.valueEmbedding ⟨[B * M.cfg.enc_in, M.seg_num_x, M.cfg.seg_len],
              (permute021 (⟨[B, M.cfg.seq_len, M.cfg.enc_in], xcd⟩ : Tensor)).data⟩)
            fun _ _ => 0)).data⟩ : Tensor).data (q * M.cfg.d_model + r))).numel := by
    rw [hnum_p, ← hmW]
    exact ⟨B, by ring⟩
  have hp_dim : (M.predict (gruHn M.cell
      (⟨[B * (M.cfg.enc_in * M.seg_num_y), 1, M.cfg.d_model], ped⟩ : Tensor)
      fun q => vecTrunc M.cfg.d_model fun r =>
        (⟨[1, B * (M.cfg.enc_in * M.seg_num_y), M.cfg.d_model],
          (repeatD2 M.seg_num_y (gruHn M.cell
            (M.valueEmbedding ⟨[B * M.cfg.enc_in, M.seg_num_x, M.cfg.seg_len],
              (permute021 (⟨[B, M.cfg.seq_len, M.cfg.enc_in], xcd⟩ : Tensor)).data⟩)
            fun _ _ => 0)).data⟩ : Tensor).data (q * M.cfg.d_model + r))).numel /
      (M.cfg.enc_in * M.cfg.pred_len) = B := by
    rw [hnum_p, ← hmW,
      show 1 * (B * (M.cfg.enc_in * M.seg_num_y) * (M.cfg.seg_len * 1)) =
        B * (M.cfg.enc_in * (M.seg_num_y * M.cfg.seg_len)) by ring]
    exact Nat.mul_div_cancel _ (Nat.mul_pos hC (by rw [hmW]; exact hP))
  have hrun : SegRNN.forward M ⟨[B, M.cfg.seq_len, M.cfg.enc_in], xd⟩ =
      broadcast3 (fun a b => a + b)
        (permute021 ⟨[B, M.cfg.enc_in, M.cfg.pred_len],
          (M.predict (gruHn M.cell
            (⟨[B * (M.cfg.enc_in * M.seg_num_y), 1, M.cfg.d_model], ped⟩ : Tensor)
            fun q => vecTrunc M.cfg.d_model fun r =>
              (⟨[1, B * (M.cfg.enc_in * M.seg_num_y), M.cfg.d_model],
                (repeatD2 M.seg_num_y (gruHn M.cell
                  (M.valueEmbedding ⟨[B * M.cfg.enc_in, M.seg_num_x, M.cfg.seg_len],
                    (permute021 (⟨[B, M.cfg.seq_len, M.cfg.enc_in], xcd⟩ : Tensor)).data⟩)
                  fun _ _ => 0)).data⟩ : Tensor).data (q * M.cfg.d_model + r))).data⟩)
        (seqLastOf ⟨[B, M.cfg.seq_len, M.cfg.enc_in], xd⟩) := by
    show (broadcast3 (fun a b => a - b) ⟨[B, M.cfg.seq_len, M.cfg.enc_in], xd⟩
        (seqLastOf ⟨[B, M.cfg.seq_len, M.cfg.enc_in], xd⟩)).bind _ = _
    rw [hxc1]
    show ((reshapeNeg1 M.seg_num_x M.cfg.seg_len
        (permute021 (⟨[B, M.cfg.seq_len, M.cfg.enc_in], xcd⟩ : Tensor))).bind _).bind _ = _
    rw [reshapeNeg1_eq _ _ _ hxr_pos hxr_dvd, hxr_dim]
    show ((rnnDefault M.cell M.cfg.d_model
        (M.valueEmbedding ⟨[B * M.cfg.enc_in, M.seg_num_x, M.cfg.seg_len],
          (permute021 (⟨[B, M.cfg.seq_len, M.cfg.enc_in], xcd⟩ : Tensor)).data⟩)).bind _).bind _ = _
    rw [rnn_valueEmbedding_eq]
    show ((M.posChanEmb B).bind _).bind _ = _
    rw [hpe1]
    show ((reshapeMid1 M.cfg.d_model (repeatD2 M.seg_num_y (gruHn M.cell
        (M.valueEmbedding ⟨[B * M.cfg.enc_in, M.seg_num_x, M.cfg.seg_len],
          (permute021 (⟨[B, M.cfg.seq_len, M.cfg.enc_in], xcd⟩ : Tensor)).data⟩)
        fun _ _ => 0))).bind _).bind _ = _
    rw [reshapeMid1_eq _ _ hD0 hh_dvd, hh_dim]
    show ((rnnWithH M.cell M.cfg.d_model
        (⟨[B * (M.cfg.enc_in * M.seg_num_y), 1, M.cfg.d_model], ped⟩ : Tensor)
        ⟨[1, B * (M.cfg.enc_in * M.seg_num_y), M.cfg.d_model],
          (repeatD2 M.seg_num_y (gruHn M.cell
            (M.valueEmbedding ⟨[B * M.cfg.enc_in, M.seg_num_x, M.cfg.seg_len],
              (permute021 (⟨[B, M.cfg.seq_len, M.cfg.enc_in], xcd⟩ : Tensor)).data⟩)
            fun _ _ => 0)).data⟩).bind _).bind _ = _
    rw [rnnWithH_eq M.cell M.cfg.d_model (B * (M.cfg.enc_in * M.seg_num_y)) 1 ped
      ⟨[1, B * (M.cfg.enc_in * M.seg_num_y), M.cfg.d_model],
        (repeatD2 M.seg_num_y (gruHn M.cell
          (M.valueEmbedding ⟨[B * M.cfg.enc_in, M.seg_num_x, M.cfg.seg_len],
            (permute021 (⟨[B, M.cfg.seq_len, M.cfg.enc_in], xcd⟩ : Tensor)).data⟩)
          fun _ _ => 0)).data⟩ rfl]
    show ((reshapeNeg1 M.cfg.enc_in M.cfg.pred_len (M.predict (gruHn M.cell
        (⟨[B * (M.cfg.enc_in * M.seg_num_y), 1, M.cfg.d_model], ped⟩ : Tensor)
        fun q => vecTrunc M.cfg.d_model fun r =>
          (⟨[1, B * (M.cfg.enc_in * M.seg_num_y), M.cfg.d_model],
            (repeatD2 M.seg_num_y (gruHn M.cell
              (M.valueEmbedding ⟨[B * M.cfg.enc_in, M.seg_num_x, M.cfg.seg_len],
                (permute021 (⟨[B, M.cfg.seq_len, M.cfg.enc_in], xcd⟩ : Tensor)).data⟩)
              fun _ _ => 0)).data⟩ : Tensor).data (q * M.cfg.d_model + r)))).bind _).bind _ = _
    rw [reshapeNeg1_eq _ _ _ hp_pos hp_dvd, hp_dim]
    rfl
  obtain ⟨y, hy1, hy2, hy3⟩ := add_seqLast_perm_spec B M.cfg.seq_len M.cfg.enc_in
    M.cfg.pred_len xd
    ((M.predict (gruHn M.cell
      (⟨[B * (M.cfg.enc_in * M.seg_num_y), 1, M.cfg.d_model], ped⟩ : Tensor)
      fun q => vecTrunc M.cfg.d_model fun r =>
        (⟨[1, B * (M.cfg.enc_in * M.seg_num_y), M.cfg.d_model],
          (repeatD2 M.seg_num_y (gruHn M.cell
            (M.valueEmbedding ⟨[B * M.cfg.enc_in, M.seg_num_x, M.cfg.seg_len],
              (permute021 (⟨[B, M.cfg.seq_len, M.cfg.enc_in], xcd⟩ : Tensor)).data⟩)
            fun _ _ => 0)).data⟩ : Tensor).data (q * M.cfg.d_model + r))).data) hP
  refine ⟨y, hrun.trans hy1, hy2, ?_⟩
  intro bb t ch hbb ht hch
  have hkk : t % M.cfg.seg_len < M.cfg.seg_len := Nat.mod_lt _ hW
  have hi0 : t / M.cfg.seg_len < M.seg_num_y := by
    rw [Nat.div_lt_iff_lt_mul hW, hmW]
    exact ht
  have hflat : flat3 bb ch t M.cfg.enc_in M.cfg.pred_len =
      flat3 0 ((bb * M.cfg.enc_in + ch) * M.seg_num_y + t / M.cfg.seg_len)
        (t % M.cfg.seg_len) (B * (M.cfg.enc_in * M.seg_num_y)) M.cfg.seg_len := by
    have hdm : M.cfg.seg_len * (t / M.cfg.seg_len) + t % M.cfg.seg_len = t :=
      Nat.div_add_mod t M.cfg.seg_len
    unfold flat3
    rw [show (0 * (B * (M.cfg.enc_in * M.seg_num_y)) +
        ((bb * M.cfg.enc_in + ch) * M.seg_num_y + t / M.cfg.seg_len)) * M.cfg.seg_len +
        t % M.cfg.seg_len =
        (bb * M.cfg.enc_in + ch) * (M.seg_num_y * M.cfg.seg_len) +
          (M.cfg.seg_len * (t / M.cfg.seg_len) + t % M.cfg.seg_len) by ring, hdm, hmW]
  rw [hy3 bb t ch hbb ht hch, hflat]
  rw [show (M.predict (gruHn M.cell
      (⟨[B * (M.cfg.enc_in * M.seg_num_y), 1, M.cfg.d_model], ped⟩ : Tensor)
      fun q => vecTrunc M.cfg.d_model fun r =>
        (⟨[1, B * (M.cfg.enc_in * M.seg_num_y), M.cfg.d_model],
          (repeatD2 M.seg_num_y (gruHn M.cell
            (M.valueEmbedding ⟨[B * M.cfg.enc_in, M.seg_num_x, M.cfg.seg_len],
              (permute021 (⟨[B, M.cfg.seq_len, M.cfg.enc_in], xcd⟩ : Tensor)).data⟩)
            fun _ _ => 0)).data⟩ : Tensor).data (q * M.cfg.d_model + r))).data
      (flat3 0 ((bb * M.cfg.enc_in + ch) * M.seg_num_y + t / M.cfg.seg_len)
        (t % M.cfg.seg_len) (B * (M.cfg.enc_in * M.seg_num_y)) M.cfg.seg_len) =
      (∑ j in Finset.range M.cfg.d_model, M.predW (t % M.cfg.seg_len) j *
        ((fun i => M.dropMask i * (gruHn M.cell
          (⟨[B * (M.cfg.enc_in * M.seg_num_y), 1, M.cfg.d_model], ped⟩ : Tensor)
          fun q => vecTrunc M.cfg.d_model fun r =>
            (⟨[1, B * (M.cfg.enc_in * M.seg_num_y), M.cfg.d_model],
              (repeatD2 M.seg_num_y (gruHn M.cell
                (M.valueEmbedding ⟨[B * M.cfg.enc_in, M.seg_num_x, M.cfg.seg_len],
                  (permute021 (⟨[B, M.cfg.seq_len, M.cfg.enc_in], xcd⟩ : Tensor)).data⟩)
                fun _ _ => 0)).data⟩ : Tensor).data (q * M.cfg.d_model + r)).data i)
          ((0 * (B * (M.cfg.enc_in * M.seg_num_y)) +
            ((bb * M.cfg.enc_in + ch) * M.seg_num_y + t / M.cfg.seg_len)) *
            M.cfg.d_model + j))) + M.predB (t % M.cfg.seg_len) from
    linearLast_get M.cfg.d_model M.cfg.seg_len M.predW M.predB 1
      (B * (M.cfg.enc_in * M.seg_num_y)) _ 0
      ((bb * M.cfg.enc_in + ch) * M.seg_num_y + t / M.cfg.seg_len)
      (t % M.cfg.seg_len) hkk]
  rw [show 0 * (B * (M.cfg.enc_in * M.seg_num_y)) +
      ((bb * M.cfg.enc_in + ch) * M.seg_num_y + t / M.cfg.seg_len) =
      (bb * M.cfg.enc_in + ch) * M.seg_num_y + t / M.cfg.seg_len by ring]
  have hENC : gruScan M.cell (M.valueEmbedding ⟨[B * M.cfg.enc_in, M.seg_num_x, M.cfg.seg_len],
        (permute021 (⟨[B, M.cfg.seq_len, M.cfg.enc_in], xcd⟩ : Tensor)).data⟩) (fun _ => (0 : ℚ)) (bb * M.cfg.enc_in + ch) =
      specEncode M (fun u => xd (flat3 bb u ch M.cfg.seq_len M.cfg.enc_in) -
      xd (flat3 bb (M.cfg.seq_len - 1) ch M.cfg.seq_len M.cfg.enc_in)) := by
    unfold gruScan specEncode
    show (List.range M.seg_num_x).foldl _ _ = (List.range M.seg_num_x).foldl _ _
    apply List.foldl_ext
    intro h j hjmem
    have hjN : j < M.seg_num_x := List.mem_range.mp hjmem
    show M.cell (gruRow (M.valueEmbedding ⟨[B * M.cfg.enc_in, M.seg_num_x, M.cfg.seg_len],
        (permute021 (⟨[B, M.cfg.seq_len, M.cfg.enc_in], xcd⟩ : Tensor)).data⟩) (bb * M.cfg.enc_in + ch) j) h =
      M.cell (specEmb M (specSeg M (fun u => xd (flat3 bb u ch M.cfg.seq_len M.cfg.enc_in) -
      xd (flat3 bb (M.cfg.seq_len - 1) ch M.cfg.seq_len M.cfg.enc_in)) j)) h
    have hrowj : gruRow (M.valueEmbedding ⟨[B * M.cfg.enc_in, M.seg_num_x, M.cfg.seg_len],
        (permute021 (⟨[B, M.cfg.seq_len, M.cfg.enc_in], xcd⟩ : Tensor)).data⟩) (bb * M.cfg.enc_in + ch) j =
        specEmb M (specSeg M (fun u => xd (flat3 bb u ch M.cfg.seq_len M.cfg.enc_in) -
      xd (flat3 bb (M.cfg.seq_len - 1) ch M.cfg.seq_len M.cfg.enc_in)) j) := by
      funext r
      by_cases hrD : r < M.cfg.d_model
      · show (if r < M.cfg.d_model then
            (M.valueEmbedding ⟨[B * M.cfg.enc_in, M.seg_num_x, M.cfg.seg_len],
        (permute021 (⟨[B, M.cfg.seq_len, M.cfg.enc_in], xcd⟩ : Tensor)).data⟩).data
              (((bb * M.cfg.enc_in + ch) * M.seg_num_x + j) * M.cfg.d_model + r)
          else 0) = _
        rw [if_pos hrD]
        show max ((∑ k' in Finset.range M.cfg.seg_len,
            M.embW ((((bb * M.cfg.enc_in + ch) * M.seg_num_x + j) * M.cfg.d_model + r) %
              M.cfg.d_model) k' *
              (permute021 (⟨[B, M.cfg.seq_len, M.cfg.enc_in], xcd⟩ : Tensor)).data
                ((((bb * M.cfg.enc_in + ch) * M.seg_num_x + j) * M.cfg.d_model + r) /
                  M.cfg.d_model * M.cfg.seg_len + k')) +
          M.embB ((((bb * M.cfg.enc_in + ch) * M.seg_num_x + j) * M.cfg.d_model + r) %
            M.cfg.d_model)) 0 = _
        rw [two_div _ _ _ hrD, two_mod _ _ _ hrD]
        unfold specEmb vecTrunc specSeg
        rw [if_pos hrD]
        congr 1
        congr 1
        apply Finset.sum_congr rfl
        intro k' hk'
        have hk'W : k' < M.cfg.seg_len := Finset.mem_range.mp hk'
        congr 1
        rw [show ((bb * M.cfg.enc_in + ch) * M.seg_num_x + j) * M.cfg.seg_len + k' =
          flat3 bb ch (j * M.cfg.seg_len + k') M.cfg.enc_in M.cfg.seq_len by
            unfold flat3; rw [← hNW]; ring]
        have hu : j * M.cfg.seg_len + k' < M.cfg.seq_len := by
          rw [← hNW]
          exact flat3_block_lt j k' _ _ hjN hk'W
        rw [show (permute021 (⟨[B, M.cfg.seq_len, M.cfg.enc_in], xcd⟩ : Tensor)).data
            (flat3 bb ch (j * M.cfg.seg_len + k') M.cfg.enc_in M.cfg.seq_len) =
            xcd (flat3 bb (j * M.cfg.seg_len + k') ch M.cfg.seq_len M.cfg.enc_in) from
          (permute021_spec B M.cfg.seq_len M.cfg.enc_in xcd).2 bb ch
            (j * M.cfg.seg_len + k') hch hu]
        exact hxc3 bb (j * M.cfg.seg_len + k') ch hbb hu hch
      · show (if r < M.cfg.d_model then
            (M.valueEmbedding ⟨[B * M.cfg.enc_in, M.seg_num_x, M.cfg.seg_len],
        (permute021 (⟨[B, M.cfg.seq_len, M.cfg.enc_in], xcd⟩ : Tensor)).data⟩).data
              (((bb * M.cfg.enc_in + ch) * M.seg_num_x + j) * M.cfg.d_model + r)
          else 0) = _
        rw [if_neg hrD]
        unfold specEmb vecTrunc
        rw [if_neg hrD]
    rw [hrowj]
  have hrow : gruRow (⟨[B * (M.cfg.enc_in * M.seg_num_y), 1, M.cfg.d_model], ped⟩ : Tensor) ((bb * M.cfg.enc_in + ch) * M.seg_num_y + t / M.cfg.seg_len) 0 = specDecIn M ch (t / M.cfg.seg_len) := by
    funext r
    show (if r < M.cfg.d_model then ped ((((bb * M.cfg.enc_in + ch) * M.seg_num_y + t / M.cfg.seg_len) * 1 + 0) * M.cfg.d_model + r) else 0) = _
    by_cases hrD : r < M.cfg.d_model
    · rw [if_pos hrD, show ((bb * M.cfg.enc_in + ch) * M.seg_num_y + t / M.cfg.seg_len) * 1 + 0 = ((bb * M.cfg.enc_in + ch) * M.seg_num_y + t / M.cfg.seg_len) by ring]
      exact hpe3 bb ch (t / M.cfg.seg_len) r hch hi0 hrD
    · rw [if_neg hrD]
      unfold specDecIn vecTrunc
      rw [if_neg hrD]
  have hhid : vecTrunc M.cfg.d_model (fun r => (⟨[1, B * (M.cfg.enc_in * M.seg_num_y), M.cfg.d_model],
      (repeatD2 M.seg_num_y (gruHn M.cell
      (M.valueEmbedding ⟨[B * M.cfg.enc_in, M.seg_num_x, M.cfg.seg_len],
        (permute021 (⟨[B, M.cfg.seq_len, M.cfg.enc_in], xcd⟩ : Tensor)).data⟩)
      fun _ _ => 0)).data⟩ : Tensor).data (((bb * M.cfg.enc_in + ch) * M.seg_num_y + t / M.cfg.seg_len) * M.cfg.d_model + r)) =
      vecTrunc M.cfg.d_model (specEncode M (fun u => xd (flat3 bb u ch M.cfg.seq_len M.cfg.enc_in) -
      xd (flat3 bb (M.cfg.seq_len - 1) ch M.cfg.seq_len M.cfg.enc_in))) := by
    funext r
    show (if r < M.cfg.d_model then
        (repeatD2 M.seg_num_y (gruHn M.cell
      (M.valueEmbedding ⟨[B * M.cfg.enc_in, M.seg_num_x, M.cfg.seg_len],
        (permute021 (⟨[B, M.cfg.seq_len, M.cfg.enc_in], xcd⟩ : Tensor)).data⟩)
      fun _ _ => 0)).data (((bb * M.cfg.enc_in + ch) * M.seg_num_y + t / M.cfg.seg_len) * M.cfg.d_model + r) else 0) =
      if r < M.cfg.d_model then specEncode M (fun u => xd (flat3 bb u ch M.cfg.seq_len M.cfg.enc_in) -
      xd (flat3 bb (M.cfg.seq_len - 1) ch M.cfg.seq_len M.cfg.enc_in)) r else 0
    by_cases hrD : r < M.cfg.d_model
    · rw [if_pos hrD, if_pos hrD]
      show (gruHn M.cell
      (M.valueEmbedding ⟨[B * M.cfg.enc_in, M.seg_num_x, M.cfg.seg_len],
        (permute021 (⟨[B, M.cfg.seq_len, M.cfg.enc_in], xcd⟩ : Tensor)).data⟩)
      fun _ _ => 0).data
          ((((bb * M.cfg.enc_in + ch) * M.seg_num_y + t / M.cfg.seg_len) * M.cfg.d_model + r) / (M.seg_num_y * M.cfg.d_model) * M.cfg.d_model +
            (((bb * M.cfg.enc_in + ch) * M.seg_num_y + t / M.cfg.seg_len) * M.cfg.d_model + r) % (M.seg_num_y * M.cfg.d_model) % M.cfg.d_model) = _
      have hblock : (t / M.cfg.seg_len) * M.cfg.d_model + r <
          M.seg_num_y * M.cfg.d_model := flat3_block_lt _ _ _ _ hi0 hrD
      rw [show ((bb * M.cfg.enc_in + ch) * M.seg_num_y + t / M.cfg.seg_len) * M.cfg.d_model + r =
          (bb * M.cfg.enc_in + ch) * (M.seg_num_y * M.cfg.d_model) +
            ((t / M.cfg.seg_len) * M.cfg.d_model + r) by ring,
        two_div _ _ _ hblock, two_mod _ _ _ hblock, two_mod _ _ _ hrD]
      show gruScan M.cell (M.valueEmbedding ⟨[B * M.cfg.enc_in, M.seg_num_x, M.cfg.seg_len],
        (permute021 (⟨[B, M.cfg.seq_len, M.cfg.enc_in], xcd⟩ : Tensor)).data⟩) (fun _ => (0 : ℚ))
          (((bb * M.cfg.enc_in + ch) * M.cfg.d_model + r) / M.cfg.d_model)
          (((bb * M.cfg.enc_in + ch) * M.cfg.d_model + r) % M.cfg.d_model) = _
      rw [two_div _ _ _ hrD, two_mod _ _ _ hrD, hENC]
    · rw [if_neg hrD, if_neg hrD]
  congr 2
  apply Finset.sum_congr rfl
  intro j hj
  have hjD : j < M.cfg.d_model := Finset.mem_range.mp hj
  congr 1
  show M.dropMask (((bb * M.cfg.enc_in + ch) * M.seg_num_y + t / M.cfg.seg_len) * M.cfg.d_model + j) *
      (gruHn M.cell (⟨[B * (M.cfg.enc_in * M.seg_num_y), 1, M.cfg.d_model], ped⟩ : Tensor)
      fun q => vecTrunc M.cfg.d_model fun r => (⟨[1, B * (M.cfg.enc_in * M.seg_num_y), M.cfg.d_model],
      (repeatD2 M.seg_num_y (gruHn M.cell
      (M.valueEmbedding ⟨[B * M.cfg.enc_in, M.seg_num_x, M.cfg.seg_len],
        (permute021 (⟨[B, M.cfg.seq_len, M.cfg.enc_in], xcd⟩ : Tensor)).data⟩)
      fun _ _ => 0)).data⟩ : Tensor).data (q * M.cfg.d_model + r)).data (((bb * M.cfg.enc_in + ch) * M.seg_num_y + t / M.cfg.seg_len) * M.cfg.d_model + j) = _
  congr 1
  show gruScan M.cell (⟨[B * (M.cfg.enc_in * M.seg_num_y), 1, M.cfg.d_model], ped⟩ : Tensor)
      (vecTrunc M.cfg.d_model fun r =>
        (⟨[1, B * (M.cfg.enc_in * M.seg_num_y), M.cfg.d_model],
      (repeatD2 M.seg_num_y (gruHn M.cell
      (M.valueEmbedding ⟨[B * M.cfg.enc_in, M.seg_num_x, M.cfg.seg_len],
        (permute021 (⟨[B, M.cfg.seq_len, M.cfg.enc_in], xcd⟩ : Tensor)).data⟩)
      fun _ _ => 0)).data⟩ : Tensor).data
          ((((bb * M.cfg.enc_in + ch) * M.seg_num_y + t / M.cfg.seg_len) * M.cfg.d_model + j) / M.cfg.d_model * M.cfg.d_model + r))
      ((((bb * M.cfg.enc_in + ch) * M.seg_num_y + t / M.cfg.seg_len) * M.cfg.d_model + j) / M.cfg.d_model)
      ((((bb * M.cfg.enc_in + ch) * M.seg_num_y + t / M.cfg.seg_len) * M.cfg.d_model + j) % M.cfg.d_model) = _
  rw [two_div _ _ _ hjD, two_mod _ _ _ hjD,
    gruScan_one M.cell (B * (M.cfg.enc_in * M.seg_num_y)) M.cfg.d_model ped _ ((bb * M.cfg.enc_in + ch) * M.seg_num_y + t / M.cfg.seg_len),
    hrow, hhid]
  rfl

/-- C5: for an input of shape `[batch, seq_len, enc_in]` with `seg_len` dividing
both `seq_len` and `pred_len` (dimensions positive, `d_model` even), the SegRNN
forward pass returns a tensor of shape `[batch, pred_len, enc_in]`. -/
theorem c5_forward_shape (M : SegRNN) (B e : Nat) (xd : Nat → ℚ)
    (hW : 0 < M.cfg.seg_len) (hS : 0 < M.cfg.seq_len) (hP : 0 < M.cfg.pred_len)
    (hC : 0 < M.cfg.enc_in) (hD : M.cfg.d_model = 2 * e) (he : 0 < e)
    (hdS : M.cfg.seg_len ∣ M.cfg.seq_len) (hdP : M.cfg.seg_len ∣ M.cfg.pred_len) :
    ∃ y, SegRNN.forward M ⟨[B, M.cfg.seq_len, M.cfg.enc_in], xd⟩ = some y ∧
      y.shape = [B, M.cfg.pred_len, M.cfg.enc_in] := by
  obtain ⟨y, h1, h2, -⟩ := forward_spec M B e xd hW hS hP hC hD he hdS hdP
  exact ⟨y, h1, h2⟩

/-- C5 witness: the concrete model `segRNN0` (seq_len 4, pred_len 2, enc_in 1,
d_model 2, seg_len 2) on a zero `[1, 4, 1]` input yields a `[1, 2, 1]` output. -/
theorem c5_forward_shape_witness :
    ∃ y, SegRNN.forward segRNN0 ⟨[1, segRNN0.cfg.seq_len, segRNN0.cfg.enc_in],
        fun _ => 0⟩ = some y ∧
      y.shape = [1, segRNN0.cfg.pred_len, segRNN0.cfg.enc_in] :=
  c5_forward_shape segRNN0 1 1 (fun _ => 0) (by decide) (by decide) (by decide)
    (by decide) (by decide) (by decide) (by decide) (by decide)

/-- C6: the forward pass computes, independently for each batch element and
channel, the segment-wise recurrent forecaster: split the normalized channel
series into `seq_len // seg_len` segments of length `seg_len`, embed each
(linear then ReLU) into `d_model` dimensions, fold the GRU over the segment
embeddings, take one GRU step per output segment on its positional/channel
embedding, project each recurrent state back to a length-`seg_len` segment and
concatenate, then denormalize (evaluation mode: dropout realized as 1). -/
theorem c6_segmentwise_forecaster (M : SegRNN) (B e : Nat) (xd : Nat → ℚ)
    (hW : 0 < M.cfg.seg_len) (hS : 0 < M.cfg.seq_len) (hP : 0 < M.cfg.pred_len)
    (hC : 0 < M.cfg.enc_in) (hD : M.cfg.d_model = 2 * e) (he : 0 < e)
    (hdS : M.cfg.seg_len ∣ M.cfg.seq_len) (hdP : M.cfg.seg_len ∣ M.cfg.pred_len)
    (hmask : M.dropMask = fun _ => 1) :
    ∃ y, SegRNN.forward M ⟨[B, M.cfg.seq_len, M.cfg.enc_in], xd⟩ = some y ∧
      y.shape = [B, M.cfg.pred_len, M.cfg.enc_in] ∧
      ∀ bb t ch, bb < B → t < M.cfg.pred_len → ch < M.cfg.enc_in →
        y.get3 bb t ch =
          specForecast M ch
            (chanSeries ⟨[B, M.cfg.seq_len, M.cfg.enc_in], xd⟩ bb ch) t := by
  obtain ⟨y, h1, h2, h3⟩ := forward_spec M B e xd hW hS hP hC hD he hdS hdP
  refine ⟨y, h1, h2, ?_⟩
  intro bb t ch hbb ht hch
  rw [h3 bb t ch hbb ht hch, hmask]
  show (∑ j in Finset.range M.cfg.d_model,
      M.predW (t % M.cfg.seg_len) j *
        (1 * specDecode M ch
          (specEncode M fun u =>
            xd (flat3 bb u ch M.cfg.seq_len M.cfg.enc_in) -
              xd (flat3 bb (M.cfg.seq_len - 1) ch M.cfg.seq_len M.cfg.enc_in))
          (t / M.cfg.seg_len) j)) +
    M.predB (t % M.cfg.seg_len) +
    xd (flat3 bb (M.cfg.seq_len - 1) ch M.cfg.seq_len M.cfg.enc_in) = _
  simp only [one_mul]
  rfl

/-- C6 witness: the refinement instantiated at the concrete model `segRNN0` in
evaluation mode on a zero `[1, 4, 1]` input. -/
theorem c6_segmentwise_forecaster_witness :
    ∃ y, SegRNN.forward segRNN0 ⟨[1, segRNN0.cfg.seq_len, segRNN0.cfg.enc_in],
        fun _ => 0⟩ = some y ∧
      y.shape = [1, segRNN0.cfg.pred_len, segRNN0.cfg.enc_in] ∧
      ∀ bb t ch, bb < 1 → t < segRNN0.cfg.pred_len → ch < segRNN0.cfg.enc_in →
        y.get3 bb t ch =
          specForecast segRNN0 ch
            (chanSeries ⟨[1, segRNN0.cfg.seq_len, segRNN0.cfg.enc_in], fun _ => 0⟩ bb ch) t :=
  c6_segmentwise_forecaster segRNN0 1 1 (fun _ => 0) (by decide) (by decide)
    (by decide) (by decide) (by decide) (by decide) (by decide) (by decide) rfl

/-- Broadcasting fails when the leading dimensions disagree and neither is 1. -/
theorem broadcast3_none_of_dim0 (f : ℚ → ℚ → ℚ) (t u : Tensor)
    (h0 : t.dim 0 ≠ u.dim 0) (h1 : t.dim 0 ≠ 1) (h2 : u.dim 0 ≠ 1) :
    broadcast3 f t u = none := by
  have hc : ¬((t.shape.length == 3 && u.shape.length == 3 &&
      bcCompat (t.dim 0) (u.dim 0) && bcCompat (t.dim 1) (u.dim 1) &&
      bcCompat (t.dim 2) (u.dim 2)) = true) := by
    simp only [Bool.and_eq_true, beq_iff_eq, bcCompat, Bool.or_eq_true]
    rintro ⟨⟨⟨⟨-, -⟩, hor⟩, -⟩, -⟩
    rcases hor with (h | h) | h
    · exact h0 h
    · exact h1 h
    · exact h2 h
  unfold broadcast3
  rw [if_neg hc]

/-- C9: implicit divisibility precondition of `SegRNN.forward`.  On a
`[batch, seq_len, enc_in]` input (positive dimensions, even positive `d_model`,
`seg_len ≤ pred_len`), the forward pass succeeds if and only if `seg_len`
divides both `seq_len` and `pred_len`: with an inexact division either the
segmenting reshape itself fails, or the mis-sized batch dimension it produces
is rejected by the decoder GRU's hidden-state shape check or by the final
broadcast against the stored last time step. -/
theorem c9_divisibility_precondition (M : SegRNN) (B e : Nat) (xd : Nat → ℚ)
    (hB : 0 < B) (hC : 0 < M.cfg.enc_in) (hS : 0 < M.cfg.seq_len)
    (hW : 0 < M.cfg.seg_len) (hWP : M.cfg.seg_len ≤ M.cfg.pred_len)
    (hD : M.cfg.d_model = 2 * e) (he : 0 < e) :
    (∃ y, SegRNN.forward M ⟨[B, M.cfg.seq_len, M.cfg.enc_in], xd⟩ = some y) ↔
      M.cfg.seg_len ∣ M.cfg.seq_len ∧ M.cfg.seg_len ∣ M.cfg.pred_len := by
  have hP : 0 < M.cfg.pred_len := lt_of_lt_of_le hW hWP
  have hD0 : 0 < M.cfg.d_model := by omega
  have hm0 : 0 < M.seg_num_y := (Nat.one_le_div_iff hW).mpr hWP
  constructor
  · rintro ⟨y, hy⟩
    by_cases hdS : M.cfg.seg_len ∣ M.cfg.seq_len
    · by_cases hdP : M.cfg.seg_len ∣ M.cfg.pred_len
      · exact ⟨hdS, hdP⟩
      · exfalso
        have hNW : M.seg_num_x * M.cfg.seg_len = M.cfg.seq_len := Nat.div_mul_cancel hdS
        obtain ⟨xc, hxc1, hxc2, hxc3⟩ :=
          sub_seqLast_spec B M.cfg.seq_len M.cfg.enc_in xd hS
        obtain ⟨xcsh, xcd⟩ := xc
        obtain rfl : xcsh = [B, M.cfg.seq_len, M.cfg.enc_in] := hxc2
        have hnum_xn : (permute021 (⟨[B, M.cfg.seq_len, M.cfg.enc_in], xcd⟩ : Tensor)).numel =
            B * (M.cfg.enc_in * (M.cfg.seq_len * 1)) := rfl
        have hxr_pos : 0 < M.seg_num_x * M.cfg.seg_len := by rw [hNW]; exact hS
        have hxr_dvd : M.seg_num_x * M.cfg.seg_len ∣
            (permute021 (⟨[B, M.cfg.seq_len, M.cfg.enc_in], xcd⟩ : Tensor)).numel := by
          rw [hnum_xn, hNW]
          exact ⟨B * M.cfg.enc_in, by ring⟩
        have hxr_dim : (permute021 (⟨[B, M.cfg.seq_len, M.cfg.enc_in], xcd⟩ : Tensor)).numel /
            (M.seg_num_x * M.cfg.seg_len) = B * M.cfg.enc_in := by
          rw [hnum_xn, hNW,
            show B * (M.cfg.enc_in * (M.cfg.seq_len * 1)) =
              B * M.cfg.enc_in * M.cfg.seq_len by ring]
          exact Nat.mul_div_cancel _ hS
        obtain ⟨pe, hpe1, hpe2, hpe3⟩ := posChanEmb_spec M B e hD he
        obtain ⟨pesh, ped⟩ := pe
        obtain rfl : pesh = [B * (M.cfg.enc_in * M.seg_num_y), 1, M.cfg.d_model] := hpe2
        have hnum_h : (repeatD2 M.seg_num_y (gruHn M.cell
            (M.valueEmbedding ⟨[B * M.cfg.enc_in, M.seg_num_x, M.cfg.seg_len],
              (permute021 (⟨[B, M.cfg.seq_len, M.cfg.enc_in], xcd⟩ : Tensor)).data⟩)
            fun _ _ => 0)).numel =
            1 * (B * M.cfg.enc_in * (M.seg_num_y * M.cfg.d_model * 1)) := rfl
        have hh_dvd : M.cfg.d_model ∣ (repeatD2 M.seg_num_y (gruHn M.cell
            (M.valueEmbedding ⟨[B * M.cfg.enc_in, M.seg_num_x, M.cfg.seg_len],
              (permute021 (⟨[B, M.cfg.seq_len, M.cfg.enc_in], xcd⟩ : Tensor)).data⟩)
            fun _ _ => 0)).numel := by
          rw [hnum_h]
          exact ⟨B * M.cfg.enc_in * M.seg_num_y, by ring⟩
        have hh_dim : (repeatD2 M.seg_num_y (gruHn M.cell
            (M.valueEmbedding ⟨[B * M.cfg.enc_in, M.seg_num_x, M.cfg.seg_len],
              (permute021 (⟨[B, M.cfg.seq_len, M.cfg.enc_in], xcd⟩ : Tensor)).data⟩)
            fun _ _ => 0)).numel / M.cfg.d_model = B * (M.cfg.enc_in * M.seg_num_y) := by
          rw [hnum_h,
            show 1 * (B * M.cfg.enc_in * (M.seg_num_y * M.cfg.d_model * 1)) =
              B * (M.cfg.enc_in * M.seg_num_y) * M.cfg.d_model by ring]
          exact Nat.mul_div_cancel _ hD0
        have hnum_p : (M.predict (gruHn M.cell
            (⟨[B * (M.cfg.enc_in * M.seg_num_y), 1, M.cfg.d_model], ped⟩ : Tensor)
            fun q => vecTrunc M.cfg.d_model fun r =>
              (⟨[1, B * (M.cfg.enc_in * M.seg_num_y), M.cfg.d_model],
                (repeatD2 M.seg_num_y (gruHn M.cell
                  (M.valueEmbedding ⟨[B * M.cfg.enc_in, M.seg_num_x, M.cfg.seg_len],
                    (permute021 (⟨[B, M.cfg.seq_len, M.cfg.enc_in], xcd⟩ : Tensor)).data⟩)
                  fun _ _ => 0)).data⟩ : Tensor).data (q * M.cfg.d_model + r))).numel =
            1 * (B * (M.cfg.enc_in * M.seg_num_y) * (M.cfg.seg_len * 1)) := rfl
        have hmWlt : M.seg_num_y * M.cfg.seg_len < M.cfg.pred_len := by
          have h1 : M.seg_num_y * M.cfg.seg_len ≤ M.cfg.pred_len := Nat.div_mul_le_self _ _
          have h2 : M.seg_num_y * M.cfg.seg_len ≠ M.cfg.pred_len := by
            intro hcon
            exact hdP ⟨M.seg_num_y, by rw [← hcon]; ring⟩
          omega
        have hrunB : SegRNN.forward M ⟨[B, M.cfg.seq_len, M.cfg.enc_in], xd⟩ =
            ((reshapeNeg1 M.cfg.enc_in M.cfg.pred_len (M.predict (gruHn M.cell
              (⟨[B * (M.cfg.enc_in * M.seg_num_y), 1, M.cfg.d_model], ped⟩ : Tensor)
              fun q => vecTrunc M.cfg.d_model fun r =>
                (⟨[1, B * (M.cfg.enc_in * M.seg_num_y), M.cfg.d_model],
                  (repeatD2 M.seg_num_y (gruHn M.cell
                    (M.valueEmbedding ⟨[B * M.cfg.enc_in, M.seg_num_x, M.cfg.seg_len],
                      (permute021 (⟨[B, M.cfg.seq_len, M.cfg.enc_in], xcd⟩ : Tensor)).data⟩)
                    fun _ _ => 0)).data⟩ : Tensor).data (q * M.cfg.d_model + r)))).bind
              fun y1 => some (permute021 y1)).bind
              fun y2 => broadcast3 (fun a b => a + b) y2
                (seqLastOf ⟨[B, M.cfg.seq_len, M.cfg.enc_in], xd⟩) := by
          show (broadcast3 (fun a b => a - b) ⟨[B, M.cfg.seq_len, M.cfg.enc_in], xd⟩
              (seqLastOf ⟨[B, M.cfg.seq_len, M.cfg.enc_in], xd⟩)).bind _ = _
          rw [hxc1]
          show ((reshapeNeg1 M.seg_num_x M.cfg.seg_len
              (permute021 (⟨[B, M.cfg.seq_len, M.cfg.enc_in], xcd⟩ : Tensor))).bind _).bind _ = _
          rw [reshapeNeg1_eq _ _ _ hxr_pos hxr_dvd, hxr_dim]
          show ((rnnDefault M.cell M.cfg.d_model
              (M.valueEmbedding ⟨[B * M.cfg.enc_in, M.seg_num_x, M.cfg.seg_len],
                (permute021 (⟨[B, M.cfg.seq_len, M.cfg.enc_in], xcd⟩ : Tensor)).data⟩)).bind _).bind _ = _
          rw [rnn_valueEmbedding_eq]
          show ((M.posChanEmb B).bind _).bind _ = _
          rw [hpe1]
          show ((reshapeMid1 M.cfg.d_model (repeatD2 M.seg_num_y (gruHn M.cell
              (M.valueEmbedding ⟨[B * M.cfg.enc_in, M.seg_num_x, M.cfg.seg_len],
                (permute021 (⟨[B, M.cfg.seq_len, M.cfg.enc_in], xcd⟩ : Tensor)).data⟩)
              fun _ _ => 0))).bind _).bind _ = _
          rw [reshapeMid1_eq _ _ hD0 hh_dvd, hh_dim]
          show ((rnnWithH M.cell M.cfg.d_model
              (⟨[B * (M.cfg.enc_in * M.seg_num_y), 1, M.cfg.d_model], ped⟩ : Tensor)
              ⟨[1, B * (M.cfg.enc_in * M.seg_num_y), M.cfg.d_model],
                (repeatD2 M.seg_num_y (gruHn M.cell
                  (M.valueEmbedding ⟨[B * M.cfg.enc_in, M.seg_num_x, M.cfg.seg_len],
                    (permute021 (⟨[B, M.cfg.seq_len, M.cfg.enc_in], xcd⟩ : Tensor)).data⟩)
                  fun _ _ => 0)).data⟩).bind _).bind _ = _
          rw [rnnWithH_eq M.cell M.cfg.d_model (B * (M.cfg.enc_in * M.seg_num_y)) 1 ped
            ⟨[1, B * (M.cfg.enc_in * M.seg_num_y), M.cfg.d_model],
              (repeatD2 M.seg_num_y (gruHn M.cell
                (M.valueEmbedding ⟨[B * M.cfg.enc_in, M.seg_num_x, M.cfg.seg_len],
                  (permute021 (⟨[B, M.cfg.seq_len, M.cfg.enc_in], xcd⟩ : Tensor)).data⟩)
                fun _ _ => 0)).data⟩ rfl]
          rfl
        by_cases hcondB : 0 < M.cfg.enc_in * M.cfg.pred_len ∧
            M.cfg.enc_in * M.cfg.pred_len ∣ (M.predict (gruHn M.cell
              (⟨[B * (M.cfg.enc_in * M.seg_num_y), 1, M.cfg.d_model], ped⟩ : Tensor)
              fun q => vecTrunc M.cfg.d_model fun r =>
                (⟨[1, B * (M.cfg.enc_in * M.seg_num_y), M.cfg.d_model],
                  (repeatD2 M.seg_num_y (gruHn M.cell
                    (M.valueEmbedding ⟨[B * M.cfg.enc_in, M.seg_num_x, M.cfg.seg_len],
                      (permute021 (⟨[B, M.cfg.seq_len, M.cfg.enc_in], xcd⟩ : Tensor)).data⟩)
                    fun _ _ => 0)).data⟩ : Tensor).data (q * M.cfg.d_model + r))).numel
        · have h7 : (M.predict (gruHn M.cell
              (⟨[B * (M.cfg.enc_in * M.seg_num_y), 1, M.cfg.d_model], ped⟩ : Tensor)
              fun q => vecTrunc M.cfg.d_model fun r =>
                (⟨[1, B * (M.cfg.enc_in * M.seg_num_y), M.cfg.d_model],
                  (repeatD2 M.seg_num_y (gruHn M.cell
                    (M.valueEmbedding ⟨[B * M.cfg.enc_in, M.seg_num_x, M.cfg.seg_len],
                      (permute021 (⟨[B, M.cfg.seq_len, M.cfg.enc_in], xcd⟩ : Tensor)).data⟩)
                    fun _ _ => 0)).data⟩ : Tensor).data (q * M.cfg.d_model + r))).numel =
              M.cfg.enc_in * (B * (M.seg_num_y * M.cfg.seg_len)) := by
            rw [hnum_p]; ring
          have hPd : M.cfg.pred_len ∣ B * (M.seg_num_y * M.cfg.seg_len) := by
            have h8 := hcondB.2
            rw [h7] at h8
            exact (Nat.mul_dvd_mul_iff_left hC).mp h8
          have hB'val : (M.predict (gruHn M.cell
              (⟨[B * (M.cfg.enc_in * M.seg_num_y), 1, M.cfg.d_model], ped⟩ : Tensor)
              fun q => vecTrunc M.cfg.d_model fun r =>
                (⟨[1, B * (M.cfg.enc_in * M.seg_num_y), M.cfg.d_model],
                  (repeatD2 M.seg_num_y (gruHn M.cell
                    (M.valueEmbedding ⟨[B * M.cfg.enc_in, M.seg_num_x, M.cfg.seg_len],
                      (permute021 (⟨[B, M.cfg.seq_len, M.cfg.enc_in], xcd⟩ : Tensor)).data⟩)
                    fun _ _ => 0)).data⟩ : Tensor).data (q * M.cfg.d_model + r))).numel /
              (M.cfg.enc_in * M.cfg.pred_len) =
              B * (M.seg_num_y * M.cfg.seg_len) / M.cfg.pred_len := by
            rw [h7]
            exact Nat.mul_div_mul_left _ _ hC
          have hB'lt : B * (M.seg_num_y * M.cfg.seg_len) / M.cfg.pred_len < B := by
            rw [Nat.div_lt_iff_lt_mul hP]
            exact mul_lt_mul_of_pos_left hmWlt hB
          have hBmW0 : 0 < B * (M.seg_num_y * M.cfg.seg_len) :=
            Nat.mul_pos hB (Nat.mul_pos hm0 hW)
          have hB'1 : 1 ≤ B * (M.seg_num_y * M.cfg.seg_len) / M.cfg.pred_len :=
            (Nat.one_le_div_iff hP).mpr (Nat.le_of_dvd hBmW0 hPd)
          have hB'ne1 : B * (M.seg_num_y * M.cfg.seg_len) / M.cfg.pred_len ≠ 1 := by
            intro hcon
            have h8 : B * (M.seg_num_y * M.cfg.seg_len) / M.cfg.pred_len * M.cfg.pred_len =
                B * (M.seg_num_y * M.cfg.seg_len) := Nat.div_mul_cancel hPd
            rw [hcon, one_mul] at h8
            have hr0 : M.cfg.pred_len % M.cfg.seg_len ≠ 0 :=
              fun h0 => hdP (Nat.dvd_of_mod_eq_zero h0)
            have hrW : M.cfg.pred_len % M.cfg.seg_len < M.cfg.seg_len := Nat.mod_lt _ hW
            have hdm2 : M.seg_num_y * M.cfg.seg_len + M.cfg.pred_len % M.cfg.seg_len =
                M.cfg.pred_len := by
              have hdm := Nat.div_add_mod M.cfg.pred_len M.cfg.seg_len
              have h9 : M.seg_num_y * M.cfg.seg_len =
                  M.cfg.seg_len * (M.cfg.pred_len / M.cfg.seg_len) := by
                show M.cfg.pred_len / M.cfg.seg_len * M.cfg.seg_len = _
                ring
              omega
            rcases Nat.lt_or_ge B 2 with hBlt | hBge
            · have hB1 : B = 1 := by omega
              rw [hB1, one_mul] at h8
              omega
            · have h10 : 2 * (M.seg_num_y * M.cfg.seg_len) ≤
                  B * (M.seg_num_y * M.cfg.seg_len) := Nat.mul_le_mul_right _ hBge
              have hWle : M.cfg.seg_len ≤ M.seg_num_y * M.cfg.seg_len :=
                Nat.le_mul_of_pos_left _ hm0
              omega
          have hBne1 : B ≠ 1 := by
            intro hcon
            rw [hcon, one_mul] at hB'lt hB'1
            omega
          have hnone : SegRNN.forward M ⟨[B, M.cfg.seq_len, M.cfg.enc_in], xd⟩ = none := by
            rw [hrunB, reshapeNeg1_eq _ _ _ hcondB.1 hcondB.2, hB'val]
            show broadcast3 (fun a b => a + b)
              (permute021 (⟨[B * (M.seg_num_y * M.cfg.seg_len) / M.cfg.pred_len,
                  M.cfg.enc_in, M.cfg.pred_len],
                (M.predict (gruHn M.cell
                  (⟨[B * (M.cfg.enc_in * M.seg_num_y), 1, M.cfg.d_model], ped⟩ : Tensor)
                  fun q => vecTrunc M.cfg.d_model fun r =>
                    (⟨[1, B * (M.cfg.enc_in * M.seg_num_y), M.cfg.d_model],
                      (repeatD2 M.seg_num_y (gruHn M.cell
                        (M.valueEmbedding ⟨[B * M.cfg.enc_in, M.seg_num_x, M.cfg.seg_len],
                          (permute021 (⟨[B, M.cfg.seq_len, M.cfg.enc_in], xcd⟩ : Tensor)).data⟩)
                        fun _ _ => 0)).data⟩ : Tensor).data (q * M.cfg.d_model + r))).data⟩ : Tensor))
              (seqLastOf ⟨[B, M.cfg.seq_len, M.cfg.enc_in], xd⟩) = none
            exact broadcast3_none_of_dim0 (fun a b => a + b) _ _
              (ne_of_lt hB'lt) hB'ne1 hBne1
          rw [hnone] at hy
          exact Option.noConfusion hy
        · have hnone : SegRNN.forward M ⟨[B, M.cfg.seq_len, M.cfg.enc_in], xd⟩ = none := by
            rw [hrunB, reshapeNeg1_none _ _ _ hcondB]
            rfl
          rw [hnone] at hy
          exact Option.noConfusion hy
    · exfalso
      obtain ⟨xc, hxc1, hxc2, hxc3⟩ :=
        sub_seqLast_spec B M.cfg.seq_len M.cfg.enc_in xd hS
      obtain ⟨xcsh, xcd⟩ := xc
      obtain rfl : xcsh = [B, M.cfg.seq_len, M.cfg.enc_in] := hxc2
      have hnum_xn : (permute021 (⟨[B, M.cfg.seq_len, M.cfg.enc_in], xcd⟩ : Tensor)).numel =
          B * (M.cfg.enc_in * (M.cfg.seq_len * 1)) := rfl
      have hNWlt : M.seg_num_x * M.cfg.seg_len < M.cfg.seq_len := by
        have h1 : M.seg_num_x * M.cfg.seg_len ≤ M.cfg.seq_len := Nat.div_mul_le_self _ _
        have h2 : M.seg_num_x * M.cfg.seg_len ≠ M.cfg.seq_len := by
          intro hcon
          exact hdS ⟨M.seg_num_x, by rw [← hcon]; ring⟩
        omega
      by_cases hcondA : 0 < M.seg_num_x * M.cfg.seg_len ∧
          M.seg_num_x * M.cfg.seg_len ∣
            (permute021 (⟨[B, M.cfg.seq_len, M.cfg.enc_in], xcd⟩ : Tensor)).numel
      · obtain ⟨hposA, kA, hkA⟩ := hcondA
        have hdivA : (permute021 (⟨[B, M.cfg.seq_len, M.cfg.enc_in], xcd⟩ : Tensor)).numel /
            (M.seg_num_x * M.cfg.seg_len) = kA := by
          rw [hkA]
          exact Nat.mul_div_cancel_left kA hposA
        have hN1gt : B * M.cfg.enc_in < kA := by
          by_contra hle
          push_neg at hle
          have h3 : B * (M.cfg.enc_in * (M.cfg.seq_len * 1)) =
              M.seg_num_x * M.cfg.seg_len * kA := by rw [← hnum_xn, hkA]
          have h4 : M.seg_num_x * M.cfg.seg_len * kA ≤
              M.seg_num_x * M.cfg.seg_len * (B * M.cfg.enc_in) :=
            Nat.mul_le_mul_left _ hle
          have h5 : M.seg_num_x * M.cfg.seg_len * (B * M.cfg.enc_in) <
              M.cfg.seq_len * (B * M.cfg.enc_in) :=
            mul_lt_mul_of_pos_right hNWlt (Nat.mul_pos hB hC)
          have h6 : M.cfg.seq_len * (B * M.cfg.enc_in) =
              B * (M.cfg.enc_in * (M.cfg.seq_len * 1)) := by ring
          omega
        obtain ⟨pe, hpe1, hpe2, hpe3⟩ := posChanEmb_spec M B e hD he
        obtain ⟨pesh, ped⟩ := pe
        obtain rfl : pesh = [B * (M.cfg.enc_in * M.seg_num_y), 1, M.cfg.d_model] := hpe2
        have hnum_hA : (repeatD2 M.seg_num_y (gruHn M.cell
            (M.valueEmbedding ⟨[kA, M.seg_num_x, M.cfg.seg_len],
              (permute021 (⟨[B, M.cfg.seq_len, M.cfg.enc_in], xcd⟩ : Tensor)).data⟩)
            fun _ _ => 0)).numel =
            1 * (kA * (M.seg_num_y * M.cfg.d_model * 1)) := rfl
        have hh_dvdA : M.cfg.d_model ∣ (repeatD2 M.seg_num_y (gruHn M.cell
            (M.valueEmbedding ⟨[kA, M.seg_num_x, M.cfg.seg_len],
              (permute021 (⟨[B, M.cfg.seq_len, M.cfg.enc_in], xcd⟩ : Tensor)).data⟩)
            fun _ _ => 0)).numel := by
          rw [hnum_hA]
          exact ⟨kA * M.seg_num_y, by ring⟩
        have hh_dimA : (repeatD2 M.seg_num_y (gruHn M.cell
            (M.valueEmbedding ⟨[kA, M.seg_num_x, M.cfg.seg_len],
              (permute021 (⟨[B, M.cfg.seq_len, M.cfg.enc_in], xcd⟩ : Tensor)).data⟩)
            fun _ _ => 0)).numel / M.cfg.d_model = kA * M.seg_num_y := by
          rw [hnum_hA,
            show 1 * (kA * (M.seg_num_y * M.cfg.d_model * 1)) =
              kA * M.seg_num_y * M.cfg.d_model by ring]
          exact Nat.mul_div_cancel _ hD0
        have hlt : B * (M.cfg.enc_in * M.seg_num_y) < kA * M.seg_num_y := by
          rw [show B * (M.cfg.enc_in * M.seg_num_y) =
            B * M.cfg.enc_in * M.seg_num_y by ring]
          exact mul_lt_mul_of_pos_right hN1gt hm0
        have hneA : ([1, kA * M.seg_num_y, M.cfg.d_model] : List Nat) ≠
            [1, B * (M.cfg.enc_in * M.seg_num_y), M.cfg.d_model] := by
          intro hcon
          simp only [List.cons.injEq] at hcon
          exact absurd hcon.2.1 (ne_of_gt hlt)
        have hnone : SegRNN.forward M ⟨[B, M.cfg.seq_len, M.cfg.enc_in], xd⟩ = none := by
          show (broadcast3 (fun a b => a - b) ⟨[B, M.cfg.seq_len, M.cfg.enc_in], xd⟩
              (seqLastOf ⟨[B, M.cfg.seq_len, M.cfg.enc_in], xd⟩)).bind _ = none
          rw [hxc1]
          show ((reshapeNeg1 M.seg_num_x M.cfg.seg_len
              (permute021 (⟨[B, M.cfg.seq_len, M.cfg.enc_in], xcd⟩ : Tensor))).bind _).bind _ = none
          rw [reshapeNeg1_eq _ _ _ hposA ⟨kA, hkA⟩, hdivA]
          show ((rnnDefault M.cell M.cfg.d_model
              (M.valueEmbedding ⟨[kA, M.seg_num_x, M.cfg.seg_len],
                (permute021 (⟨[B, M.cfg.seq_len, M.cfg.enc_in], xcd⟩ : Tensor)).data⟩)).bind _).bind _ = none
          rw [rnn_valueEmbedding_eq]
          show ((M.posChanEmb B).bind _).bind _ = none
          rw [hpe1]
          show ((reshapeMid1 M.cfg.d_model (repeatD2 M.seg_num_y (gruHn M.cell
              (M.valueEmbedding ⟨[kA, M.seg_num_x, M.cfg.seg_len],
                (permute021 (⟨[B, M.cfg.seq_len, M.cfg.enc_in], xcd⟩ : Tensor)).data⟩)
              fun _ _ => 0))).bind _).bind _ = none
          rw [reshapeMid1_eq _ _ hD0 hh_dvdA, hh_dimA]
          show ((rnnWithH M.cell M.cfg.d_model
              (⟨[B * (M.cfg.enc_in * M.seg_num_y), 1, M.cfg.d_model], ped⟩ : Tensor)
              ⟨[1, kA * M.seg_num_y, M.cfg.d_model],
                (repeatD2 M.seg_num_y (gruHn M.cell
                  (M.valueEmbedding ⟨[kA, M.seg_num_x, M.cfg.seg_len],
                    (permute021 (⟨[B, M.cfg.seq_len, M.cfg.enc_in], xcd⟩ : Tensor)).data⟩)
                  fun _ _ => 0)).data⟩).bind _).bind _ = none
          rw [rnnWithH_none M.cell M.cfg.d_model
            (⟨[B * (M.cfg.enc_in * M.seg_num_y), 1, M.cfg.d_model], ped⟩ : Tensor)
            ⟨[1, kA * M.seg_num_y, M.cfg.d_model],
              (repeatD2 M.seg_num_y (gruHn M.cell
                (M.valueEmbedding ⟨[kA, M.seg_num_x, M.cfg.seg_len],
                  (permute021 (⟨[B, M.cfg.seq_len, M.cfg.enc_in], xcd⟩ : Tensor)).data⟩)
                fun _ _ => 0)).data⟩ hneA]
          rfl
        rw [hnone] at hy
        exact Option.noConfusion hy
      · have hnone : SegRNN.forward M ⟨[B, M.cfg.seq_len, M.cfg.enc_in], xd⟩ = none := by
          show (broadcast3 (fun a b => a - b) ⟨[B, M.cfg.seq_len, M.cfg.enc_in], xd⟩
              (seqLastOf ⟨[B, M.cfg.seq_len, M.cfg.enc_in], xd⟩)).bind _ = none
          rw [hxc1]
          show ((reshapeNeg1 M.seg_num_x M.cfg.seg_len
              (permute021 (⟨[B, M.cfg.seq_len, M.cfg.enc_in], xcd⟩ : Tensor))).bind _).bind _ = none
          rw [reshapeNeg1_none _ _ _ hcondA]
          rfl
        rw [hnone] at hy
        exact Option.noConfusion hy
  · rintro ⟨hdS, hdP⟩
    obtain ⟨y, h1, -, -⟩ := forward_spec M B e xd hW hS hP hC hD he hdS hdP
    exact ⟨y, h1⟩

/-- C9 witness: the divisibility criterion instantiated at the concrete model
`segRNNbad` (seg_len 3, seq_len 4, pred_len 3) on a zero `[1, 4, 1]` input. -/
theorem c9_divisibility_precondition_witness :
    (∃ y, SegRNN.forward segRNNbad ⟨[1, segRNNbad.cfg.seq_len, segRNNbad.cfg.enc_in],
        fun _ => 0⟩ = some y) ↔
      segRNNbad.cfg.seg_len ∣ segRNNbad.cfg.seq_len ∧
        segRNNbad.cfg.seg_len ∣ segRNNbad.cfg.pred_len :=
  c9_divisibility_precondition segRNNbad 1 1 (fun _ => 0) (by decide) (by decide)
    (by decide) (by decide) (by decide) (by decide) (by decide)
